import Mathlib

/-!
# ATS flight mode: a shallow embedding of `flight_mode.cpp`

The controller class `ATSFlightMode` is embedded as a record that is passed
explicitly through every member function.  The `float` fields are embedded in
an arbitrary linearly ordered field `F` (so every result holds both over the
rationals, where the definitions evaluate, and over the reals); the functions
of `<cmath>` and the constant `M_PI` are supplied through a `Trig F` record.
Calls that leave the object (`ShowMessage`, `WriteProcessMemory`,
`SetCursorPos`, ...) are appended to the `effects` trace of the record.
-/

namespace FlightMode

/-! ## Constants of `windows.h` used by the source -/

/-- Key code `VK_SHIFT`. -/
def VK_SHIFT : Fin 256 := 0x10
/-- Key code `VK_CONTROL`. -/
def VK_CONTROL : Fin 256 := 0x11
/-- Key code `VK_SPACE`. -/
def VK_SPACE : Fin 256 := 0x20
/-- Key code `VK_F8`. -/
def VK_F8 : Fin 256 := 0x77
/-- Key code `VK_F9`. -/
def VK_F9 : Fin 256 := 0x78
/-- Key code of the character literal `'W'`. -/
def KEY_W : Fin 256 := 0x57
/-- Key code of the character literal `'A'`. -/
def KEY_A : Fin 256 := 0x41
/-- Key code of the character literal `'S'`. -/
def KEY_S : Fin 256 := 0x53
/-- Key code of the character literal `'D'`. -/
def KEY_D : Fin 256 := 0x44
/-- Key code of the character literal `'C'`. -/
def KEY_C : Fin 256 := 0x43

/-- Message `WM_KEYDOWN`. -/
def WM_KEYDOWN : Nat := 0x0100
/-- Message `WM_KEYUP`. -/
def WM_KEYUP : Nat := 0x0101
/-- Message `WM_SYSKEYDOWN`. -/
def WM_SYSKEYDOWN : Nat := 0x0104
/-- Message `WM_SYSKEYUP`. -/
def WM_SYSKEYUP : Nat := 0x0105
/-- Message `WM_MOUSEMOVE`. -/
def WM_MOUSEMOVE : Nat := 0x0200
/-- Message `WM_LBUTTONDOWN`. -/
def WM_LBUTTONDOWN : Nat := 0x0201
/-- Message `WM_LBUTTONUP`. -/
def WM_LBUTTONUP : Nat := 0x0202
/-- Message `WM_RBUTTONDOWN`. -/
def WM_RBUTTONDOWN : Nat := 0x0204
/-- Message `WM_RBUTTONUP`. -/
def WM_RBUTTONUP : Nat := 0x0205
/-- Message `WM_MBUTTONDOWN`. -/
def WM_MBUTTONDOWN : Nat := 0x0207
/-- Message `WM_MBUTTONUP`. -/
def WM_MBUTTONUP : Nat := 0x0208

/-! ## Data model (`flight_mode.h`) -/

/-- The `POINT` of `windows.h`: two `LONG` coordinates. -/
structure POINT where
  x : Int
  y : Int
deriving DecidableEq, Repr

/-- The `struct FlightCamera` of `flight_mode.h`. -/
structure FlightCamera (F : Type) where
  x : F
  y : F
  z : F
  pitch : F
  yaw : F
  roll : F
  speed : F
  noclip : Bool
deriving DecidableEq, Repr

/-- The part of the telemetry value read through `truck_data`:
`world_placement.position`. -/
structure WorldPlacement (F : Type) where
  x : F
  y : F
  z : F
deriving DecidableEq, Repr

/-- The `struct GameAddresses` of `flight_mode.h`; `0` is an unresolved
address. -/
structure GameAddresses where
  base_address : Nat
  camera_x : Nat
  camera_y : Nat
  camera_z : Nat
  camera_pitch : Nat
  camera_yaw : Nat
  camera_roll : Nat
  vehicle_x : Nat
  vehicle_y : Nat
  vehicle_z : Nat
  vehicle_rot_x : Nat
  vehicle_rot_y : Nat
  vehicle_rot_z : Nat
  input_enabled : Nat
  camera_mode : Nat
deriving DecidableEq, Repr

/-- The three texts passed to `ShowMessage` in the source. -/
inductive Notice where
  | FLIGHT_MODE_ACTIVATED
  | FLIGHT_MODE_DEACTIVATED
  | VEHICLE_TELEPORTED
deriving DecidableEq, Repr

/-- A call that leaves the controller object. -/
inductive Effect (F : Type) where
  | ShowMessage (title : Notice)
  | WriteProcessMemory (address : Nat) (value : F)
  | SetCursorPos (x : Int) (y : Int)
  | SaveVehicleState
  | DisableGameInput
  | EnableGameInput
deriving DecidableEq, Repr

/-- The result of a hook procedure: `return 1` (the event is blocked) or
`return CallNextHookEx(...)` (the event is passed on). -/
inductive HookResult where
  | blocked
  | CallNextHookEx
deriving DecidableEq, Repr

/-- The functions of `<cmath>` and the constant `M_PI` used by the source. -/
structure Trig (F : Type) where
  M_PI : F
  cos : F → F
  sin : F → F

/-- The `class ATSFlightMode` of `flight_mode.h`.  `first_move` is the
function-local `static bool first_move` of `MouseHookProc`; `effects` is the
trace of calls that leave the object (newest last). -/
structure ATSFlightMode (F : Type) where
  flight_mode_active : Bool
  input_blocked : Bool
  camera : FlightCamera F
  saved_vehicle_state : Option (WorldPlacement F)
  keys : Fin 256 → Bool
  last_mouse_pos : POINT
  mouse_look_active : Bool
  addresses : GameAddresses
  truck_data : Option (WorldPlacement F)
  first_move : Bool
  effects : List (Effect F)

section Operations

variable {F : Type} [LinearOrderedField F]

/-- The state built by the constructor `ATSFlightMode::ATSFlightMode()`
(lines 8-26), together with the initial value of the static `first_move`.
The addresses are not set by the constructor and are taken as a parameter. -/
def ATSFlightMode.init (addresses : GameAddresses) : ATSFlightMode F where
  flight_mode_active := false
  input_blocked := false
  camera := ⟨0, 0, 0, 0, 0, 0, 50, true⟩
  saved_vehicle_state := none
  keys := fun _ => false
  last_mouse_pos := ⟨0, 0⟩
  mouse_look_active := false
  addresses := addresses
  truck_data := none
  first_move := true
  effects := []

/-- The call `ShowMessage(title, message)` (lines 346-361): a modal message
box, recorded in the trace. -/
def ShowMessage (title : Notice) (s : ATSFlightMode F) : ATSFlightMode F :=
  { s with effects := s.effects ++ [Effect.ShowMessage title] }

/-- Modelled from the spec: `SaveVehicleState` is declared in `flight_mode.h`
and has no body in the sources; the spec has it capture a snapshot of the
latest known vehicle telemetry. -/
def SaveVehicleState (s : ATSFlightMode F) : ATSFlightMode F :=
  { s with saved_vehicle_state := s.truck_data,
           effects := s.effects ++ [Effect.SaveVehicleState] }

/-- Modelled from the spec: `DisableGameInput` is declared in `flight_mode.h`
and has no body in the sources; the spec has it act on the input capture of
the host only, so it is recorded in the trace. -/
def DisableGameInput (s : ATSFlightMode F) : ATSFlightMode F :=
  { s with effects := s.effects ++ [Effect.DisableGameInput] }

/-- Modelled from the spec: `EnableGameInput` is declared in `flight_mode.h`
and has no body in the sources; the spec has it release the input capture of
the host only, so it is recorded in the trace. -/
def EnableGameInput (s : ATSFlightMode F) : ATSFlightMode F :=
  { s with effects := s.effects ++ [Effect.EnableGameInput] }

/-- The member `ATSFlightMode::ToggleFlightMode` (lines 82-114). -/
def ToggleFlightMode (s : ATSFlightMode F) : ATSFlightMode F :=
  let s1 := { s with flight_mode_active := !s.flight_mode_active }
  if s1.flight_mode_active then
    let s2 := DisableGameInput (SaveVehicleState s1)
    let s3 :=
      match s2.truck_data with
      | some t => { s2 with camera := { s2.camera with x := t.x, y := t.y + 3, z := t.z } }
      | none => s2
    ShowMessage Notice.FLIGHT_MODE_ACTIVATED { s3 with mouse_look_active := true }
  else
    let s2 := EnableGameInput s1
    ShowMessage Notice.FLIGHT_MODE_DEACTIVATED { s2 with mouse_look_active := false }

/-- The member `ATSFlightMode::Shutdown` (lines 66-80); the two hook handles
are not part of the embedding. -/
def Shutdown (s : ATSFlightMode F) : ATSFlightMode F :=
  if s.flight_mode_active then ToggleFlightMode s else s

/-- The member `ATSFlightMode::TeleportVehicleToCamera` (lines 116-138). -/
def TeleportVehicleToCamera (T : Trig F) (s : ATSFlightMode F) : ATSFlightMode F :=
  if !s.flight_mode_active then s
  else
    let ground_y := s.camera.y - 2
    let s1 :=
      if s.addresses.vehicle_x ≠ 0 ∧ s.addresses.vehicle_y ≠ 0 ∧ s.addresses.vehicle_z ≠ 0 then
        let truck_rotation := s.camera.yaw * (T.M_PI / 180)
        { s with effects := s.effects ++
            [Effect.WriteProcessMemory s.addresses.vehicle_x s.camera.x,
             Effect.WriteProcessMemory s.addresses.vehicle_y ground_y,
             Effect.WriteProcessMemory s.addresses.vehicle_z s.camera.z,
             Effect.WriteProcessMemory s.addresses.vehicle_rot_y truck_rotation] }
      else s
    ShowMessage Notice.VEHICLE_TELEPORTED s1

/-- The member `ATSFlightMode::UpdateCameraInGame` (lines 330-344). -/
def UpdateCameraInGame (s : ATSFlightMode F) : ATSFlightMode F :=
  if s.addresses.camera_x = 0 then s
  else
    { s with effects := s.effects ++
        [Effect.WriteProcessMemory s.addresses.camera_x s.camera.x,
         Effect.WriteProcessMemory s.addresses.camera_y s.camera.y,
         Effect.WriteProcessMemory s.addresses.camera_z s.camera.z,
         Effect.WriteProcessMemory s.addresses.camera_pitch s.camera.pitch,
         Effect.WriteProcessMemory s.addresses.camera_yaw s.camera.yaw] }

/-- The effective speed of lines 143-147. -/
def effectiveSpeed (keys : Fin 256 → Bool) (camera_speed delta_time : F) : F :=
  let speed0 := camera_speed * delta_time
  let speed1 := if keys VK_SHIFT then speed0 * 4 else speed0
  if keys VK_CONTROL then speed1 * 0.2 else speed1

/-- The body of `if (keys['W'])` (lines 163-165). -/
def moveForward (forward_x forward_y forward_z speed : F) (c : FlightCamera F) :
    FlightCamera F :=
  { c with x := c.x + forward_x * speed, y := c.y + forward_y * speed,
           z := c.z + forward_z * speed }

/-- The body of `if (keys['S'])` (lines 168-170). -/
def moveBackward (forward_x forward_y forward_z speed : F) (c : FlightCamera F) :
    FlightCamera F :=
  { c with x := c.x - forward_x * speed, y := c.y - forward_y * speed,
           z := c.z - forward_z * speed }

/-- The body of `if (keys['A'])` (lines 173-174). -/
def moveLeft (right_x right_z speed : F) (c : FlightCamera F) : FlightCamera F :=
  { c with x := c.x - right_x * speed, z := c.z - right_z * speed }

/-- The body of `if (keys['D'])` (lines 177-178). -/
def moveRight (right_x right_z speed : F) (c : FlightCamera F) : FlightCamera F :=
  { c with x := c.x + right_x * speed, z := c.z + right_z * speed }

/-- The body of `if (keys[VK_SPACE])` (line 181). -/
def moveUp (speed : F) (c : FlightCamera F) : FlightCamera F :=
  { c with y := c.y + speed }

/-- The body of `if (keys['C'])` (line 184). -/
def moveDown (speed : F) (c : FlightCamera F) : FlightCamera F :=
  { c with y := c.y - speed }

/-- The member `ATSFlightMode::UpdateFlightMovement` (lines 140-189). -/
def UpdateFlightMovement (T : Trig F) (delta_time : F) (s : ATSFlightMode F) :
    ATSFlightMode F :=
  if !s.flight_mode_active then s
  else
    let speed := effectiveSpeed s.keys s.camera.speed delta_time
    let yaw_rad := s.camera.yaw * (T.M_PI / 180)
    let pitch_rad := s.camera.pitch * (T.M_PI / 180)
    let forward_x := T.cos yaw_rad * T.cos pitch_rad
    let forward_y := T.sin pitch_rad
    let forward_z := T.sin yaw_rad * T.cos pitch_rad
    let right_x := T.cos (yaw_rad + T.M_PI / 2)
    let right_z := T.sin (yaw_rad + T.M_PI / 2)
    let c0 := s.camera
    let c1 := if s.keys KEY_W then moveForward forward_x forward_y forward_z speed c0 else c0
    let c2 := if s.keys KEY_S then moveBackward forward_x forward_y forward_z speed c1 else c1
    let c3 := if s.keys KEY_A then moveLeft right_x right_z speed c2 else c2
    let c4 := if s.keys KEY_D then moveRight right_x right_z speed c3 else c3
    let c5 := if s.keys VK_SPACE then moveUp speed c4 else c4
    let c6 := if s.keys KEY_C then moveDown speed c5 else c5
    UpdateCameraInGame { s with camera := c6 }

/-- The test of lines 214-218: the keys let through while flight mode is
active. -/
def isFlightKey (vkCode : Fin 256) : Bool :=
  vkCode == KEY_W || vkCode == KEY_A || vkCode == KEY_S || vkCode == KEY_D ||
  vkCode == VK_SPACE || vkCode == KEY_C || vkCode == VK_SHIFT || vkCode == VK_CONTROL ||
  vkCode == VK_F8 || vkCode == VK_F9

/-- The hook `ATSFlightMode::KeyboardHookProc` (lines 191-236).  `vkCode` is
`kbd->vkCode`, which indexes the 256-entry table `keys`; `ctrlAsync` is the
answer of `GetAsyncKeyState(VK_CONTROL) & 0x8000`. -/
def KeyboardHookProc (T : Trig F) (nCode : Int) (wParam : Nat) (vkCode : Fin 256)
    (ctrlAsync : Bool) (s : ATSFlightMode F) : HookResult × ATSFlightMode F :=
  if 0 ≤ nCode then
    if wParam = WM_KEYDOWN ∨ wParam = WM_SYSKEYDOWN then
      let s1 := { s with keys := Function.update s.keys vkCode true }
      if vkCode = VK_F9 then
        (HookResult.blocked, ToggleFlightMode s1)
      else if vkCode = VK_F8 ∧ ctrlAsync = true then
        (HookResult.blocked, TeleportVehicleToCamera T s1)
      else if s1.flight_mode_active then
        if isFlightKey vkCode then (HookResult.CallNextHookEx, s1)
        else (HookResult.blocked, s1)
      else (HookResult.CallNextHookEx, s1)
    else if wParam = WM_KEYUP ∨ wParam = WM_SYSKEYUP then
      let s1 := { s with keys := Function.update s.keys vkCode false }
      if s1.flight_mode_active then (HookResult.blocked, s1)
      else (HookResult.CallNextHookEx, s1)
    else (HookResult.CallNextHookEx, s)
  else (HookResult.CallNextHookEx, s)

/-- The 32-bit `int` result of a subtraction of two `LONG` coordinates
(lines 253-254), with two's complement wrap-around. -/
def wrapInt32 (n : Int) : Int := (n + 2 ^ 31) % 2 ^ 32 - 2 ^ 31

/-- The two statements under `// Clamp pitch` (lines 261-262). -/
def clampPitch (pitch : F) : F :=
  let pitch1 := if pitch > 89 then 89 else pitch
  if pitch1 < -89 then -89 else pitch1

/-- The two statements under `// Wrap yaw` (lines 265-266). -/
def wrapYaw (yaw : F) : F :=
  let yaw1 := if yaw > 360 then yaw - 360 else yaw
  if yaw1 < 0 then yaw1 + 360 else yaw1

/-- The hook `ATSFlightMode::MouseHookProc` (lines 238-291).  `pt` is
`mouse->pt`; `center` is the screen position of the centre of the foreground
window, as answered by `GetClientRect` and `ClientToScreen`. -/
def MouseHookProc (nCode : Int) (wParam : Nat) (pt center : POINT)
    (s : ATSFlightMode F) : HookResult × ATSFlightMode F :=
  if 0 ≤ nCode ∧ s.flight_mode_active = true ∧ s.mouse_look_active = true then
    if wParam = WM_MOUSEMOVE then
      if s.first_move then
        (HookResult.CallNextHookEx, { s with last_mouse_pos := pt, first_move := false })
      else
        let delta_x := wrapInt32 (pt.x - s.last_mouse_pos.x)
        let delta_y := wrapInt32 (pt.y - s.last_mouse_pos.y)
        let yaw := s.camera.yaw + (delta_x : F) * 0.15
        let pitch := s.camera.pitch - (delta_y : F) * 0.15
        (HookResult.blocked,
          { s with camera := { s.camera with yaw := wrapYaw yaw, pitch := clampPitch pitch },
                   last_mouse_pos := center,
                   effects := s.effects ++ [Effect.SetCursorPos center.x center.y] })
    else if wParam = WM_LBUTTONDOWN ∨ wParam = WM_RBUTTONDOWN ∨ wParam = WM_MBUTTONDOWN ∨
        wParam = WM_LBUTTONUP ∨ wParam = WM_RBUTTONUP ∨ wParam = WM_MBUTTONUP then
      (HookResult.blocked, s)
    else (HookResult.CallNextHookEx, s)
  else (HookResult.CallNextHookEx, s)

/-- The callback `ATSFlightMode::OnTruckTelemetry` (lines 303-310) on the
channel `world_placement`. -/
def OnTruckTelemetry (value : WorldPlacement F) (s : ATSFlightMode F) : ATSFlightMode F :=
  { s with truck_data := some value }

/-! ## Event traces -/

/-- The calls the host and the operating system make on the controller.
`frame dt` is a frame end whose elapsed time, computed by `OnFrameEnd`
(lines 293-301) from the tick counter, is `dt`. -/
inductive Event (F : Type) where
  | key (nCode : Int) (wParam : Nat) (vkCode : Fin 256) (ctrlAsync : Bool)
  | mouse (nCode : Int) (wParam : Nat) (pt : POINT) (center : POINT)
  | toggle
  | teleport
  | frame (dt : F)
  | telemetry (value : WorldPlacement F)
  | shutdown

/-- One event applied to the controller. -/
def step (T : Trig F) (s : ATSFlightMode F) : Event F → ATSFlightMode F
  | Event.key nCode wParam vkCode ctrlAsync =>
      (KeyboardHookProc T nCode wParam vkCode ctrlAsync s).2
  | Event.mouse nCode wParam pt center => (MouseHookProc nCode wParam pt center s).2
  | Event.toggle => ToggleFlightMode s
  | Event.teleport => TeleportVehicleToCamera T s
  | Event.frame dt => UpdateFlightMovement T dt s
  | Event.telemetry value => OnTruckTelemetry value s
  | Event.shutdown => Shutdown s

/-- A sequence of events applied in order. -/
def run (T : Trig F) (s : ATSFlightMode F) (evs : List (Event F)) : ATSFlightMode F :=
  evs.foldl (step T) s

/-- One call of the keyboard hook: the arguments of `KeyboardHookProc` and
the answer of `GetAsyncKeyState(VK_CONTROL) & 0x8000` at that moment. -/
structure KeyEvent where
  nCode : Int
  wParam : Nat
  vkCode : Fin 256
  ctrlAsync : Bool
deriving DecidableEq, Repr

/-- The event is a key-down: the test of line 196. -/
def KeyEvent.isDown (e : KeyEvent) : Prop :=
  e.wParam = WM_KEYDOWN ∨ e.wParam = WM_SYSKEYDOWN

/-- The keyboard hook run over a sequence of events: each event with the
result the hook returned for it. -/
def keyboardTrace (T : Trig F) (s : ATSFlightMode F) :
    List KeyEvent → List (KeyEvent × HookResult)
  | [] => []
  | e :: es =>
      let r := KeyboardHookProc T e.nCode e.wParam e.vkCode e.ctrlAsync s
      (e, r.1) :: keyboardTrace T r.2 es

end Operations

/-- A rational stand-in for `<cmath>`, used to evaluate the definitions:
`M_PI` is `355/113` and the two functions are their Taylor polynomials of
degree two and three. -/
def ratTrig : Trig ℚ where
  M_PI := 355 / 113
  cos := fun a => 1 - a ^ 2 / 2
  sin := fun a => a - a ^ 3 / 6

/-- Addresses as left by a successful `FindGameAddresses` (lines 312-328) for
the module base `0x400000`; the fields it does not assign are `0`. -/
def sampleAddresses : GameAddresses where
  base_address := 0x400000
  camera_x := 0x400000 + 0x1234567
  camera_y := 0x400000 + 0x1234568
  camera_z := 0x400000 + 0x1234569
  camera_pitch := 0
  camera_yaw := 0
  camera_roll := 0
  vehicle_x := 0
  vehicle_y := 0
  vehicle_z := 0
  vehicle_rot_x := 0
  vehicle_rot_y := 0
  vehicle_rot_z := 0
  input_enabled := 0
  camera_mode := 0

/-- An active controller on which boost and precision are held and no
directional key is. -/
def idleState : ATSFlightMode ℚ :=
  { (ATSFlightMode.init sampleAddresses : ATSFlightMode ℚ) with
    flight_mode_active := true
    mouse_look_active := true
    camera := ⟨12, 7, -3, 30, 200, 0, 50, true⟩
    keys := fun k => k == VK_SHIFT || k == VK_CONTROL }

/-- Key code of the character literal `'X'`, a key outside the flight keys. -/
def KEY_X : Fin 256 := 0x58

/-- Activation by F9, a first pointer sample at `(0, 0)`, then a pointer
sample 5000 units to the right. -/
def farMoveEvents : List (Event ℚ) :=
  [Event.key 0 WM_KEYDOWN VK_F9 false,
   Event.mouse 0 WM_MOUSEMOVE ⟨0, 0⟩ ⟨960, 540⟩,
   Event.mouse 0 WM_MOUSEMOVE ⟨5000, 0⟩ ⟨960, 540⟩]

/-- Activation by F9, a first pointer sample at `(0, 0)`, then a pointer
sample 2400 units to the right. -/
def fullTurnEvents : List (Event ℚ) :=
  [Event.key 0 WM_KEYDOWN VK_F9 false,
   Event.mouse 0 WM_MOUSEMOVE ⟨0, 0⟩ ⟨960, 540⟩,
   Event.mouse 0 WM_MOUSEMOVE ⟨2400, 0⟩ ⟨960, 540⟩]

/-- A first activation by F9 with two pointer samples, then a deactivation
by F9. -/
def firstFlightEvents : List (Event ℚ) :=
  [Event.key 0 WM_KEYDOWN VK_F9 false,
   Event.mouse 0 WM_MOUSEMOVE ⟨100, 100⟩ ⟨960, 540⟩,
   Event.mouse 0 WM_MOUSEMOVE ⟨110, 100⟩ ⟨960, 540⟩,
   Event.key 0 WM_KEYDOWN VK_F9 false]

/-- The events of `firstFlightEvents` followed by a second activation by
F9. -/
def reactivationEvents : List (Event ℚ) :=
  firstFlightEvents ++ [Event.key 0 WM_KEYDOWN VK_F9 false]

/-- The constructor state with the sample addresses: flight mode is off. -/
def inactiveState : ATSFlightMode ℚ := ATSFlightMode.init sampleAddresses

section MoreOperations

variable {F : Type} [LinearOrderedField F]

/-- The forward vector of lines 154-156, from the two angles in radians. -/
def forwardVector (T : Trig F) (yaw_rad pitch_rad : F) : F × F × F :=
  (T.cos yaw_rad * T.cos pitch_rad, T.sin pitch_rad, T.sin yaw_rad * T.cos pitch_rad)

/-- The right vector of lines 158-159: its `x` and `z` components.  The
source computes no height component for it. -/
def rightVector (T : Trig F) (yaw_rad : F) : F × F :=
  (T.cos (yaw_rad + T.M_PI / 2), T.sin (yaw_rad + T.M_PI / 2))

/-- An active controller with the given addresses, camera and key table. -/
def activeState (addresses : GameAddresses) (camera : FlightCamera F)
    (keys : Fin 256 → Bool) : ATSFlightMode F :=
  { (ATSFlightMode.init addresses : ATSFlightMode F) with
    flight_mode_active := true
    mouse_look_active := true
    camera := camera
    keys := keys }

end MoreOperations

/-- The sample addresses with the four vehicle addresses resolved. -/
def resolvedAddresses : GameAddresses :=
  { sampleAddresses with
    vehicle_x := 0x400000 + 0x2345670
    vehicle_y := 0x400000 + 0x2345674
    vehicle_z := 0x400000 + 0x2345678
    vehicle_rot_y := 0x400000 + 0x2345680 }

/-- An active controller with resolved vehicle addresses whose camera is at
`(5, 10, 5)` with yaw 90. -/
def teleportState : ATSFlightMode ℚ :=
  activeState resolvedAddresses ⟨5, 10, 5, 0, 90, 0, 50, true⟩ (fun _ => false)

/-- Activation by F9 from the constructor state. -/
def activationEvents : List (Event ℚ) :=
  [Event.key 0 WM_KEYDOWN VK_F9 false]

/-- Activation by F9 and a first pointer sample at `(100, 100)`. -/
def firstSampleEvents : List (Event ℚ) :=
  [Event.key 0 WM_KEYDOWN VK_F9 false,
   Event.mouse 0 WM_MOUSEMOVE ⟨100, 100⟩ ⟨960, 540⟩]

/-- The constructor state after telemetry put the vehicle at
`(100, 20, -50)`. -/
def telemetryState : ATSFlightMode ℚ :=
  OnTruckTelemetry ⟨100, 20, -50⟩ inactiveState

/-- An active controller at the constructor pose on which Space, Shift and
Control are held. -/
def climbState : ATSFlightMode ℚ :=
  activeState sampleAddresses ⟨0, 0, 0, 0, 0, 0, 50, true⟩
    (fun k => k == VK_SPACE || k == VK_SHIFT || k == VK_CONTROL)

/-- An active controller at the constructor pose on which only W is held. -/
def forwardState : ATSFlightMode ℚ :=
  activeState sampleAddresses ⟨0, 0, 0, 0, 0, 0, 50, true⟩ (fun k => k == KEY_W)

/-- An active controller on which flight mode is on, the baseline of the
pointer is `(100, 100)` and the first sample has been taken. -/
def lookState : ATSFlightMode ℚ :=
  { (activeState sampleAddresses ⟨0, 0, 0, 10, 45, 0, 50, true⟩ (fun _ => false) :
      ATSFlightMode ℚ) with
    last_mouse_pos := ⟨100, 100⟩
    first_move := false }

/-- An active controller looking up and sideways on which only Space and
Shift are held. -/
def riseState : ATSFlightMode ℚ :=
  activeState sampleAddresses ⟨1, 2, 3, 40, 75, 0, 50, true⟩
    (fun k => k == VK_SPACE || k == VK_SHIFT)

section Distance

variable {F : Type} [LinearOrderedField F]

/-- The square of the Euclidean distance between the positions of two camera
poses. -/
def sqDistance (a b : FlightCamera F) : F :=
  (b.x - a.x) ^ 2 + (b.y - a.y) ^ 2 + (b.z - a.z) ^ 2

end Distance

/-- The wrap of the spec (section 4.2, "yaw is wrapped into [0, 360)"): the
value reduced by whole turns of 360 into the interval from 0 to 360, 360
excluded.  It is not taken from the source; the source has `wrapYaw`. -/
def specWrapYaw (yaw : ℚ) : ℚ := yaw - 360 * (⌊yaw / 360⌋ : ℤ)

section KeyboardRuns

variable {F : Type} [LinearOrderedField F]

end KeyboardRuns

/-- Activation by F9 and a first pointer sample at `(0, 0)`. -/
def originSampleEvents : List (Event ℚ) :=
  [Event.key 0 WM_KEYDOWN VK_F9 false,
   Event.mouse 0 WM_MOUSEMOVE ⟨0, 0⟩ ⟨960, 540⟩]

end FlightMode

namespace FlightMode

/-! ## Frame lemmas -/

/-- The function `UpdateCameraInGame` only writes to the host: the camera is untouched. -/
theorem UpdateCameraInGame_camera {F : Type} (s : ATSFlightMode F) :
    (UpdateCameraInGame s).camera = s.camera := by
  unfold UpdateCameraInGame
  split <;> rfl

section Theorems

variable {F : Type} [LinearOrderedField F]

/-- The function `ToggleFlightMode` does not change the pitch. -/
theorem ToggleFlightMode_pitch (s : ATSFlightMode F) :
    (ToggleFlightMode s).camera.pitch = s.camera.pitch := by
  unfold ToggleFlightMode ShowMessage EnableGameInput DisableGameInput SaveVehicleState
  cases s.flight_mode_active <;> cases s.truck_data <;> rfl

/-- The function `ToggleFlightMode` does not change the key table. -/
theorem ToggleFlightMode_keys (s : ATSFlightMode F) :
    (ToggleFlightMode s).keys = s.keys := by
  unfold ToggleFlightMode ShowMessage EnableGameInput DisableGameInput SaveVehicleState
  cases s.flight_mode_active <;> cases s.truck_data <;> rfl

/-- The function `ToggleFlightMode` flips the activation flag. -/
theorem ToggleFlightMode_active (s : ATSFlightMode F) :
    (ToggleFlightMode s).flight_mode_active = !s.flight_mode_active := by
  unfold ToggleFlightMode ShowMessage EnableGameInput DisableGameInput SaveVehicleState
  cases s.flight_mode_active <;> cases s.truck_data <;> rfl

/-- The function `TeleportVehicleToCamera` does not change the camera. -/
theorem TeleportVehicleToCamera_camera (T : Trig F) (s : ATSFlightMode F) :
    (TeleportVehicleToCamera T s).camera = s.camera := by
  unfold TeleportVehicleToCamera ShowMessage
  split
  · rfl
  · dsimp only
    split <;> rfl

/-- The function `TeleportVehicleToCamera` does not change the key table. -/
theorem TeleportVehicleToCamera_keys (T : Trig F) (s : ATSFlightMode F) :
    (TeleportVehicleToCamera T s).keys = s.keys := by
  unfold TeleportVehicleToCamera ShowMessage
  split
  · rfl
  · dsimp only
    split <;> rfl

/-- The function `UpdateFlightMovement` does not change the pitch. -/
theorem UpdateFlightMovement_pitch (T : Trig F) (dt : F) (s : ATSFlightMode F) :
    (UpdateFlightMovement T dt s).camera.pitch = s.camera.pitch := by
  unfold UpdateFlightMovement
  split
  · rfl
  · rw [UpdateCameraInGame_camera]
    dsimp only
    split_ifs <;> rfl

/-- The function `KeyboardHookProc` does not change the pitch. -/
theorem KeyboardHookProc_pitch (T : Trig F) (nCode : Int) (wParam : Nat) (vkCode : Fin 256)
    (ctrlAsync : Bool) (s : ATSFlightMode F) :
    (KeyboardHookProc T nCode wParam vkCode ctrlAsync s).2.camera.pitch = s.camera.pitch := by
  unfold KeyboardHookProc
  dsimp only
  split_ifs <;> simp [ToggleFlightMode_pitch, TeleportVehicleToCamera_camera]

/-- The clamp of lines 261-262 lands between -89 and 89. -/
theorem clampPitch_bounds (p : F) : -89 ≤ clampPitch p ∧ clampPitch p ≤ 89 := by
  unfold clampPitch
  dsimp only
  split_ifs <;> constructor <;> linarith

/-- The function `MouseHookProc` keeps the pitch between -89 and 89. -/
theorem MouseHookProc_pitch_bounds (nCode : Int) (wParam : Nat) (pt center : POINT)
    (s : ATSFlightMode F) (h : -89 ≤ s.camera.pitch ∧ s.camera.pitch ≤ 89) :
    -89 ≤ (MouseHookProc nCode wParam pt center s).2.camera.pitch ∧
      (MouseHookProc nCode wParam pt center s).2.camera.pitch ≤ 89 := by
  unfold MouseHookProc
  dsimp only
  split_ifs <;> first | exact h | exact clampPitch_bounds _

/-- Every event keeps the pitch between -89 and 89. -/
theorem step_pitch_bounds (T : Trig F) (s : ATSFlightMode F) (e : Event F)
    (h : -89 ≤ s.camera.pitch ∧ s.camera.pitch ≤ 89) :
    -89 ≤ (step T s e).camera.pitch ∧ (step T s e).camera.pitch ≤ 89 := by
  cases e with
  | key nCode wParam vkCode ctrlAsync =>
      simp only [step, KeyboardHookProc_pitch]; exact h
  | mouse nCode wParam pt center => exact MouseHookProc_pitch_bounds nCode wParam pt center s h
  | toggle => simp only [step, ToggleFlightMode_pitch]; exact h
  | teleport => simp only [step, TeleportVehicleToCamera_camera]; exact h
  | frame dt => simp only [step, UpdateFlightMovement_pitch]; exact h
  | telemetry value => exact h
  | shutdown =>
      simp only [step, Shutdown]
      split
      · rw [ToggleFlightMode_pitch]; exact h
      · exact h

/-- Every sequence of events keeps the pitch between -89 and 89. -/
theorem run_pitch_bounds (T : Trig F) (evs : List (Event F)) (s : ATSFlightMode F)
    (h : -89 ≤ s.camera.pitch ∧ s.camera.pitch ≤ 89) :
    -89 ≤ (run T s evs).camera.pitch ∧ (run T s evs).camera.pitch ≤ 89 := by
  induction evs generalizing s with
  | nil => exact h
  | cons e es ih => exact ih (step T s e) (step_pitch_bounds T s e h)

/-- While flight mode is off, a keyboard event that is not the key-down of a
reserved hotkey is passed on and leaves flight mode off. -/
theorem KeyboardHookProc_inactive (T : Trig F) (e : KeyEvent) (s : ATSFlightMode F)
    (hinactive : s.flight_mode_active = false)
    (hhot : e.isDown → e.vkCode ≠ VK_F9 ∧ ¬(e.vkCode = VK_F8 ∧ e.ctrlAsync = true)) :
    (KeyboardHookProc T e.nCode e.wParam e.vkCode e.ctrlAsync s).1 = HookResult.CallNextHookEx ∧
      (KeyboardHookProc T e.nCode e.wParam e.vkCode e.ctrlAsync s).2.flight_mode_active
        = false := by
  unfold KeyboardHookProc
  dsimp only
  by_cases hd : e.wParam = WM_KEYDOWN ∨ e.wParam = WM_SYSKEYDOWN
  · obtain ⟨h9, h8⟩ := hhot hd
    simp [hd, h9, h8, hinactive]
    split <;> simp [hinactive]
  · simp only [if_neg hd, hinactive]
    split_ifs <;> simp_all

/-- While flight mode is off and no reserved hotkey goes down, the keyboard
hook passes every event on. -/
theorem keyboardTrace_inactive (T : Trig F) (evs : List KeyEvent) (s : ATSFlightMode F)
    (hinactive : s.flight_mode_active = false)
    (hhot : ∀ e ∈ evs, e.isDown → e.vkCode ≠ VK_F9 ∧ ¬(e.vkCode = VK_F8 ∧ e.ctrlAsync = true)) :
    keyboardTrace T s evs = evs.map (fun e => (e, HookResult.CallNextHookEx)) := by
  induction evs generalizing s with
  | nil => rfl
  | cons e es ih =>
      have he := KeyboardHookProc_inactive T e s hinactive (hhot e (List.mem_cons_self e es))
      simp only [keyboardTrace, List.map_cons, he.1]
      rw [ih _ he.2 (fun d hd => hhot d (List.mem_cons_of_mem e hd))]

/-! ## The claims -/

/-- C1: when none of the six directional keys W, S, A, D, Space, C is held,
`UpdateFlightMovement` leaves the whole camera pose unchanged, for every time
step, every pose and every state of the boost and precision keys. -/
theorem C1_idle_identity (T : Trig F) (dt : F) (s : ATSFlightMode F)
    (hW : s.keys KEY_W = false) (hS : s.keys KEY_S = false)
    (hA : s.keys KEY_A = false) (hD : s.keys KEY_D = false)
    (hSpace : s.keys VK_SPACE = false) (hC : s.keys KEY_C = false) :
    (UpdateFlightMovement T dt s).camera = s.camera := by
  unfold UpdateFlightMovement
  split
  · rfl
  · simp [UpdateCameraInGame_camera, hW, hS, hA, hD, hSpace, hC]

/-- C2: in every state reached from the constructor state by any sequence of
key, pointer, toggle, teleport, frame, telemetry and shutdown events, with
arbitrary pointer coordinates, the camera pitch lies between -89 and 89. -/
theorem C2_pitch_invariant (T : Trig F) (addresses : GameAddresses) (evs : List (Event F)) :
    -89 ≤ (run T (ATSFlightMode.init addresses) evs).camera.pitch ∧
      (run T (ATSFlightMode.init addresses) evs).camera.pitch ≤ 89 :=
  run_pitch_bounds T evs (ATSFlightMode.init addresses)
    ⟨by show (-89 : F) ≤ 0; norm_num, by show (0 : F) ≤ 89; norm_num⟩

/-- C5, as the code has it: while flight mode is active, a key-down of a
flight key sets the entry of the key in the table, and it is blocked exactly
when the key is F9, or F8 with Control held; every other flight key is passed
to the next hook. -/
theorem C5_flight_key_down (T : Trig F) (nCode : Int) (wParam : Nat) (vkCode : Fin 256)
    (ctrlAsync : Bool) (s : ATSFlightMode F) (hn : 0 ≤ nCode)
    (hdown : wParam = WM_KEYDOWN ∨ wParam = WM_SYSKEYDOWN)
    (hactive : s.flight_mode_active = true) (hkey : isFlightKey vkCode = true) :
    (KeyboardHookProc T nCode wParam vkCode ctrlAsync s).2.keys vkCode = true ∧
      ((KeyboardHookProc T nCode wParam vkCode ctrlAsync s).1 = HookResult.blocked ↔
        (vkCode = VK_F9 ∨ (vkCode = VK_F8 ∧ ctrlAsync = true))) := by
  unfold KeyboardHookProc
  rw [if_pos hn, if_pos hdown]
  dsimp only
  by_cases h9 : vkCode = VK_F9
  · rw [if_pos h9]
    simp [ToggleFlightMode_keys, h9]
  · rw [if_neg h9]
    by_cases h8 : vkCode = VK_F8 ∧ ctrlAsync = true
    · rw [if_pos h8]
      simp [TeleportVehicleToCamera_keys, h8]
    · rw [if_neg h8, if_pos hactive, if_pos hkey]
      simp [h9, h8]

/-- C7: in every state, active or not, a key-down of F9 is blocked and runs
`ToggleFlightMode`, which flips the activation flag, and a key-down of F8
with Control held is blocked and runs `TeleportVehicleToCamera`. -/
theorem C7_reserved_hotkeys (T : Trig F) (nCode : Int) (wParam : Nat) (ctrlAsync : Bool)
    (s : ATSFlightMode F) (hn : 0 ≤ nCode)
    (hdown : wParam = WM_KEYDOWN ∨ wParam = WM_SYSKEYDOWN) :
    KeyboardHookProc T nCode wParam VK_F9 ctrlAsync s =
        (HookResult.blocked,
          ToggleFlightMode { s with keys := Function.update s.keys VK_F9 true }) ∧
      (KeyboardHookProc T nCode wParam VK_F9 ctrlAsync s).2.flight_mode_active =
        (!s.flight_mode_active) ∧
      KeyboardHookProc T nCode wParam VK_F8 true s =
        (HookResult.blocked,
          TeleportVehicleToCamera T { s with keys := Function.update s.keys VK_F8 true }) := by
  have h89 : VK_F8 ≠ VK_F9 := by decide
  unfold KeyboardHookProc
  simp only [if_pos hn, if_pos hdown, if_true, if_neg h89, and_self, ToggleFlightMode_active]

/-- C8: while flight mode is off, every keyboard event other than the
key-down of a reserved hotkey (F9; F8 with Control held) is passed to the
next hook, a processed key-down sets and a processed key-up clears the entry
of its key and nothing else, and every pointer event is passed on with the
state unchanged. -/
theorem C8_inactive_forwards (T : Trig F) (nCode : Int) (wParam : Nat) (vkCode : Fin 256)
    (ctrlAsync : Bool) (mCode : Int) (mParam : Nat) (pt center : POINT) (s : ATSFlightMode F)
    (hinactive : s.flight_mode_active = false)
    (hhot : ¬((wParam = WM_KEYDOWN ∨ wParam = WM_SYSKEYDOWN) ∧
      (vkCode = VK_F9 ∨ (vkCode = VK_F8 ∧ ctrlAsync = true)))) :
    (KeyboardHookProc T nCode wParam vkCode ctrlAsync s).1 = HookResult.CallNextHookEx ∧
      (0 ≤ nCode → (wParam = WM_KEYDOWN ∨ wParam = WM_SYSKEYDOWN) →
        (KeyboardHookProc T nCode wParam vkCode ctrlAsync s).2 =
          { s with keys := Function.update s.keys vkCode true }) ∧
      (0 ≤ nCode → (wParam = WM_KEYUP ∨ wParam = WM_SYSKEYUP) →
        (KeyboardHookProc T nCode wParam vkCode ctrlAsync s).2 =
          { s with keys := Function.update s.keys vkCode false }) ∧
      MouseHookProc mCode mParam pt center s = (HookResult.CallNextHookEx, s) := by
  have hno : ∀ w : Nat, (w = WM_KEYDOWN ∨ w = WM_SYSKEYDOWN) →
      ¬(w = WM_KEYUP ∨ w = WM_SYSKEYUP) := by
    intro w hw
    rcases hw with rfl | rfl <;> decide
  refine ⟨?_, ?_, ?_, ?_⟩
  · have h := KeyboardHookProc_inactive T ⟨nCode, wParam, vkCode, ctrlAsync⟩ s hinactive
      (fun hd => ⟨fun h9 => hhot ⟨hd, Or.inl h9⟩, fun h8 => hhot ⟨hd, Or.inr h8⟩⟩)
    exact h.1
  · intro hn hd
    have h9 : ¬vkCode = VK_F9 := fun h9 => hhot ⟨hd, Or.inl h9⟩
    have h8 : ¬(vkCode = VK_F8 ∧ ctrlAsync = true) := fun h8 => hhot ⟨hd, Or.inr h8⟩
    unfold KeyboardHookProc
    simp [hn, hd, h9, h8, hinactive]
  · intro hn hu
    have hd : ¬(wParam = WM_KEYDOWN ∨ wParam = WM_SYSKEYDOWN) := fun hd => hno wParam hd hu
    unfold KeyboardHookProc
    simp [hn, hd, hu, hinactive]
  · unfold MouseHookProc
    simp [hinactive]

/-- C9: while flight mode is active, a key-down of a key outside the flight
keys is blocked, and it changes only the key table: the activation flag and
the camera pose stay as they were. -/
theorem C9_other_key_down_blocked (T : Trig F) (nCode : Int) (wParam : Nat)
    (vkCode : Fin 256) (ctrlAsync : Bool) (s : ATSFlightMode F) (hn : 0 ≤ nCode)
    (hdown : wParam = WM_KEYDOWN ∨ wParam = WM_SYSKEYDOWN)
    (hactive : s.flight_mode_active = true) (hkey : isFlightKey vkCode = false) :
    KeyboardHookProc T nCode wParam vkCode ctrlAsync s =
        (HookResult.blocked, { s with keys := Function.update s.keys vkCode true }) ∧
      (KeyboardHookProc T nCode wParam vkCode ctrlAsync s).2.flight_mode_active =
        s.flight_mode_active ∧
      (KeyboardHookProc T nCode wParam vkCode ctrlAsync s).2.camera = s.camera := by
  have h9 : ¬vkCode = VK_F9 := by
    intro h; rw [h] at hkey; exact absurd hkey (by decide)
  have h8 : ¬(vkCode = VK_F8 ∧ ctrlAsync = true) := by
    intro h; rw [h.1] at hkey; exact absurd hkey (by decide)
  unfold KeyboardHookProc
  simp [hn, hdown, h9, h8, hactive, hkey]

/-- C10: while flight mode is active, every key-up is blocked, clears the
entry of its key in the table and leaves every other entry unchanged. -/
theorem C10_key_up_blocked (T : Trig F) (nCode : Int) (wParam : Nat) (vkCode : Fin 256)
    (ctrlAsync : Bool) (s : ATSFlightMode F) (hn : 0 ≤ nCode)
    (hup : wParam = WM_KEYUP ∨ wParam = WM_SYSKEYUP)
    (hactive : s.flight_mode_active = true) :
    (KeyboardHookProc T nCode wParam vkCode ctrlAsync s).1 = HookResult.blocked ∧
      (KeyboardHookProc T nCode wParam vkCode ctrlAsync s).2.keys vkCode = false ∧
      ∀ k : Fin 256, k ≠ vkCode →
        (KeyboardHookProc T nCode wParam vkCode ctrlAsync s).2.keys k = s.keys k := by
  have hd : ¬(wParam = WM_KEYDOWN ∨ wParam = WM_SYSKEYDOWN) := by
    rcases hup with rfl | rfl <;> decide
  unfold KeyboardHookProc
  simp only [if_pos hn, if_neg hd, if_pos hup, hactive, if_true, Function.update_same]
  exact ⟨trivial, trivial, fun k hk => Function.update_noteq hk false s.keys⟩

end Theorems

/-! ## The claims at concrete inputs -/

/-- C1 at a concrete input: active, boost and precision held, no directional
key held, time step `1`. -/
theorem C1_idle_identity_witness :
    (UpdateFlightMovement ratTrig 1 idleState).camera = idleState.camera :=
  C1_idle_identity ratTrig 1 idleState rfl rfl rfl rfl rfl rfl

/-- C3 at two failing inputs: after activation and a first pointer sample at
`(0, 0)`, a pointer sample at `(5000, 0)` leaves the yaw at 390, and a pointer
sample at `(2400, 0)` leaves it at 360; neither is below 360. -/
theorem C3_yaw_leaves_range :
    (run ratTrig inactiveState farMoveEvents).camera.yaw = 390 ∧
      (run ratTrig inactiveState fullTurnEvents).camera.yaw = 360 := by
  constructor
  · simp [run, step, farMoveEvents, inactiveState, ATSFlightMode.init, KeyboardHookProc,
      MouseHookProc, ToggleFlightMode, ShowMessage, DisableGameInput, SaveVehicleState,
      wrapYaw, wrapInt32, WM_KEYDOWN, WM_MOUSEMOVE]
    norm_num
  · simp [run, step, fullTurnEvents, inactiveState, ATSFlightMode.init, KeyboardHookProc,
      MouseHookProc, ToggleFlightMode, ShowMessage, DisableGameInput, SaveVehicleState,
      wrapYaw, wrapInt32, WM_KEYDOWN, WM_MOUSEMOVE]
    norm_num

/-- C4 at a failing input: after a first flight and a deactivation, flight
mode is off; after the second activation it is on with yaw 3/2, and the first
pointer sample after that activation, at `(1060, 540)`, moves the yaw to
33/2. -/
theorem C4_reactivation_jump :
    (run ratTrig inactiveState firstFlightEvents).flight_mode_active = false ∧
      (run ratTrig inactiveState reactivationEvents).flight_mode_active = true ∧
      (run ratTrig inactiveState reactivationEvents).camera.yaw = 3 / 2 ∧
      (MouseHookProc 0 WM_MOUSEMOVE ⟨1060, 540⟩ ⟨960, 540⟩
        (run ratTrig inactiveState reactivationEvents)).2.camera.yaw = 33 / 2 := by
  simp [run, step, reactivationEvents, firstFlightEvents, inactiveState, ATSFlightMode.init,
    KeyboardHookProc, MouseHookProc, ToggleFlightMode, ShowMessage, DisableGameInput,
    EnableGameInput, SaveVehicleState, wrapYaw, wrapInt32, WM_KEYDOWN, WM_MOUSEMOVE]
  norm_num

/-- C5 at a concrete input: while flight mode is active, the key-down of the
flight key W is not blocked but passed to the next hook. -/
theorem C5_flight_key_passed_on :
    idleState.flight_mode_active = true ∧ isFlightKey KEY_W = true ∧
      (KeyboardHookProc ratTrig 0 WM_KEYDOWN KEY_W false idleState).1 ≠ HookResult.blocked := by
  refine ⟨rfl, rfl, ?_⟩
  simp [KeyboardHookProc, idleState, WM_KEYDOWN, isFlightKey, KEY_W, VK_F9, VK_F8]

/-- C5 as amended, at the key-down of W on an active controller. -/
theorem C5_flight_key_down_witness :
    (KeyboardHookProc ratTrig 0 WM_KEYDOWN KEY_W false idleState).2.keys KEY_W = true ∧
      ((KeyboardHookProc ratTrig 0 WM_KEYDOWN KEY_W false idleState).1 = HookResult.blocked ↔
        (KEY_W = VK_F9 ∨ (KEY_W = VK_F8 ∧ false = true))) :=
  C5_flight_key_down ratTrig 0 WM_KEYDOWN KEY_W false idleState (by decide) (Or.inl rfl) rfl rfl

/-- C7 at a concrete input: the key-down of F9 and of F8 with Control held on
the constructor state. -/
theorem C7_reserved_hotkeys_witness :
    KeyboardHookProc ratTrig 0 WM_KEYDOWN VK_F9 false inactiveState =
        (HookResult.blocked,
          ToggleFlightMode
            { inactiveState with keys := Function.update inactiveState.keys VK_F9 true }) ∧
      (KeyboardHookProc ratTrig 0 WM_KEYDOWN VK_F9 false inactiveState).2.flight_mode_active =
        (!inactiveState.flight_mode_active) ∧
      KeyboardHookProc ratTrig 0 WM_KEYDOWN VK_F8 true inactiveState =
        (HookResult.blocked,
          TeleportVehicleToCamera ratTrig
            { inactiveState with keys := Function.update inactiveState.keys VK_F8 true }) :=
  C7_reserved_hotkeys ratTrig 0 WM_KEYDOWN false inactiveState (by decide) (Or.inl rfl)

/-- C8 at a concrete input: the key-down of W and a pointer move on the
constructor state. -/
theorem C8_inactive_forwards_witness :
    (KeyboardHookProc ratTrig 0 WM_KEYDOWN KEY_W false inactiveState).1 =
        HookResult.CallNextHookEx ∧
      (KeyboardHookProc ratTrig 0 WM_KEYDOWN KEY_W false inactiveState).2 =
        { inactiveState with keys := Function.update inactiveState.keys KEY_W true } ∧
      MouseHookProc 0 WM_MOUSEMOVE ⟨10, 20⟩ ⟨960, 540⟩ inactiveState =
        (HookResult.CallNextHookEx, inactiveState) :=
  have h := C8_inactive_forwards ratTrig 0 WM_KEYDOWN KEY_W false 0 WM_MOUSEMOVE ⟨10, 20⟩
    ⟨960, 540⟩ inactiveState rfl (by decide)
  ⟨h.1, h.2.1 (by decide) (Or.inl rfl), h.2.2.2⟩

/-- C9 at a concrete input: the key-down of X on an active controller. -/
theorem C9_other_key_down_blocked_witness :
    KeyboardHookProc ratTrig 0 WM_KEYDOWN KEY_X false idleState =
        (HookResult.blocked,
          { idleState with keys := Function.update idleState.keys KEY_X true }) ∧
      (KeyboardHookProc ratTrig 0 WM_KEYDOWN KEY_X false idleState).2.flight_mode_active =
        idleState.flight_mode_active ∧
      (KeyboardHookProc ratTrig 0 WM_KEYDOWN KEY_X false idleState).2.camera =
        idleState.camera :=
  C9_other_key_down_blocked ratTrig 0 WM_KEYDOWN KEY_X false idleState (by decide) (Or.inl rfl)
    rfl rfl

/-- C10 at a concrete input: the key-up of Shift on an active controller on
which Shift is held. -/
theorem C10_key_up_blocked_witness :
    idleState.keys VK_SHIFT = true ∧
      (KeyboardHookProc ratTrig 0 WM_KEYUP VK_SHIFT false idleState).1 = HookResult.blocked ∧
      (KeyboardHookProc ratTrig 0 WM_KEYUP VK_SHIFT false idleState).2.keys VK_SHIFT = false ∧
      ∀ k : Fin 256, k ≠ VK_SHIFT →
        (KeyboardHookProc ratTrig 0 WM_KEYUP VK_SHIFT false idleState).2.keys k =
          idleState.keys k :=
  ⟨rfl, C10_key_up_blocked ratTrig 0 WM_KEYUP VK_SHIFT false idleState (by decide) (Or.inl rfl)
    rfl⟩

/-! ## Further frame lemmas -/

/-- The function `UpdateCameraInGame` leaves the two activation flags alone. -/
theorem UpdateCameraInGame_flags {F : Type} (s : ATSFlightMode F) :
    (UpdateCameraInGame s).mouse_look_active = s.mouse_look_active ∧
      (UpdateCameraInGame s).flight_mode_active = s.flight_mode_active := by
  unfold UpdateCameraInGame
  split <;> exact ⟨rfl, rfl⟩

section MoreTheorems

variable {F : Type} [LinearOrderedField F]

/-- The function `ToggleFlightMode` leaves the two activation flags equal. -/
theorem ToggleFlightMode_mouse_look (s : ATSFlightMode F) :
    (ToggleFlightMode s).mouse_look_active = (ToggleFlightMode s).flight_mode_active := by
  unfold ToggleFlightMode ShowMessage EnableGameInput DisableGameInput SaveVehicleState
  cases s.flight_mode_active <;> cases s.truck_data <;> rfl

/-- Every event keeps `mouse_look_active` equal to `flight_mode_active`. -/
theorem step_mouse_look (T : Trig F) (s : ATSFlightMode F) (e : Event F)
    (h : s.mouse_look_active = s.flight_mode_active) :
    (step T s e).mouse_look_active = (step T s e).flight_mode_active := by
  cases e with
  | key nCode wParam vkCode ctrlAsync =>
      simp only [step, KeyboardHookProc]
      split_ifs <;>
        first
        | exact h
        | exact ToggleFlightMode_mouse_look _
        | (unfold TeleportVehicleToCamera ShowMessage
           dsimp only
           split_ifs <;> exact h)
  | mouse nCode wParam pt center =>
      simp only [step, MouseHookProc]
      split_ifs <;> exact h
  | toggle => exact ToggleFlightMode_mouse_look s
  | teleport =>
      simp only [step]
      unfold TeleportVehicleToCamera ShowMessage
      dsimp only
      split_ifs <;> exact h
  | frame dt =>
      simp only [step]
      unfold UpdateFlightMovement
      split
      · exact h
      · rw [(UpdateCameraInGame_flags _).1, (UpdateCameraInGame_flags _).2]
        exact h
  | telemetry value => exact h
  | shutdown =>
      simp only [step, Shutdown]
      split
      · exact ToggleFlightMode_mouse_look s
      · exact h

/-- Along every sequence of events `mouse_look_active` stays equal to
`flight_mode_active`. -/
theorem run_mouse_look (T : Trig F) (evs : List (Event F)) (s : ATSFlightMode F)
    (h : s.mouse_look_active = s.flight_mode_active) :
    (run T s evs).mouse_look_active = (run T s evs).flight_mode_active := by
  induction evs generalizing s with
  | nil => exact h
  | cons e es ih => exact ih (step T s e) (step_mouse_look T s e h)

/-- C11, as the code has it: in every active state reached from the
constructor state, a pointer-move event is blocked exactly when it is not
the first sample; the first sample ever processed only records the baseline
and is passed to the next hook. -/
theorem C11_pointer_move_after_first (T : Trig F) (addresses : GameAddresses)
    (evs : List (Event F)) (nCode : Int) (pt center : POINT) (hn : 0 ≤ nCode)
    (hactive : (run T (ATSFlightMode.init addresses) evs).flight_mode_active = true) :
    ((MouseHookProc nCode WM_MOUSEMOVE pt center
          (run T (ATSFlightMode.init addresses) evs)).1 = HookResult.blocked ↔
        (run T (ATSFlightMode.init addresses) evs).first_move = false) ∧
      ((run T (ATSFlightMode.init addresses) evs).first_move = true →
        MouseHookProc nCode WM_MOUSEMOVE pt center (run T (ATSFlightMode.init addresses) evs) =
          (HookResult.CallNextHookEx,
            { run T (ATSFlightMode.init addresses) evs with
              last_mouse_pos := pt, first_move := false })) := by
  have hlook := run_mouse_look T evs (ATSFlightMode.init addresses) rfl
  rw [hactive] at hlook
  unfold MouseHookProc
  rw [if_pos ⟨hn, hactive, hlook⟩, if_pos rfl]
  cases hfirst : (run T (ATSFlightMode.init addresses) evs).first_move <;> simp

/-- C12: on an active controller whose vehicle position addresses are
resolved, `TeleportVehicleToCamera` writes `camera.x`, `camera.y - 2`,
`camera.z` to the vehicle position and `camera.yaw * (M_PI / 180)` to the
vehicle rotation, and changes nothing of the controller but the trace; for
the camera at `(5, 10, 5)` with yaw 90 the values written are 5, 8, 5 and
`M_PI / 2`. -/
theorem C12_teleport_values (T : Trig F) (s : ATSFlightMode F)
    (hactive : s.flight_mode_active = true)
    (hx : s.addresses.vehicle_x ≠ 0) (hy : s.addresses.vehicle_y ≠ 0)
    (hz : s.addresses.vehicle_z ≠ 0) :
    TeleportVehicleToCamera T s =
        { s with effects := s.effects ++
            [Effect.WriteProcessMemory s.addresses.vehicle_x s.camera.x,
             Effect.WriteProcessMemory s.addresses.vehicle_y (s.camera.y - 2),
             Effect.WriteProcessMemory s.addresses.vehicle_z s.camera.z,
             Effect.WriteProcessMemory s.addresses.vehicle_rot_y
               (s.camera.yaw * (T.M_PI / 180)),
             Effect.ShowMessage Notice.VEHICLE_TELEPORTED] } ∧
      (TeleportVehicleToCamera T s).camera = s.camera ∧
      (TeleportVehicleToCamera T s).flight_mode_active = s.flight_mode_active ∧
      (s.camera.x = 5 → s.camera.y = 10 → s.camera.z = 5 → s.camera.yaw = 90 →
        (TeleportVehicleToCamera T s).effects = s.effects ++
          [Effect.WriteProcessMemory s.addresses.vehicle_x 5,
           Effect.WriteProcessMemory s.addresses.vehicle_y 8,
           Effect.WriteProcessMemory s.addresses.vehicle_z 5,
           Effect.WriteProcessMemory s.addresses.vehicle_rot_y (T.M_PI / 2),
           Effect.ShowMessage Notice.VEHICLE_TELEPORTED]) := by
  have hmain : TeleportVehicleToCamera T s =
      { s with effects := s.effects ++
          [Effect.WriteProcessMemory s.addresses.vehicle_x s.camera.x,
           Effect.WriteProcessMemory s.addresses.vehicle_y (s.camera.y - 2),
           Effect.WriteProcessMemory s.addresses.vehicle_z s.camera.z,
           Effect.WriteProcessMemory s.addresses.vehicle_rot_y
             (s.camera.yaw * (T.M_PI / 180)),
           Effect.ShowMessage Notice.VEHICLE_TELEPORTED] } := by
    unfold TeleportVehicleToCamera ShowMessage
    simp [hactive, hx, hy, hz]
  refine ⟨hmain, ?_, ?_, ?_⟩
  · rw [hmain]
  · rw [hmain]
  · intro h5 h10 h5z h90
    rw [hmain]
    have hy8 : s.camera.y - 2 = 8 := by rw [h10]; norm_num
    have hrot : s.camera.yaw * (T.M_PI / 180) = T.M_PI / 2 := by rw [h90]; ring
    simp only [h5, h5z, hy8, hrot]

/-- C14: on a controller on which flight mode is off, `ToggleFlightMode`
switches it on; with telemetry received the camera moves to the vehicle
position raised by 3 and keeps pitch, yaw, roll and speed, and without
telemetry the camera is left as it was. -/
theorem C14_activation_seeding (s : ATSFlightMode F)
    (hinactive : s.flight_mode_active = false) :
    (ToggleFlightMode s).flight_mode_active = true ∧
      (∀ t : WorldPlacement F, s.truck_data = some t →
        (ToggleFlightMode s).camera =
          { s.camera with x := t.x, y := t.y + 3, z := t.z }) ∧
      (s.truck_data = none → (ToggleFlightMode s).camera = s.camera) := by
  unfold ToggleFlightMode ShowMessage DisableGameInput SaveVehicleState
  refine ⟨?_, ?_, ?_⟩
  · cases htd : s.truck_data <;> simp [hinactive]
  · intro t ht
    simp [hinactive, ht]
  · intro hnone
    simp [hinactive, hnone]

end MoreTheorems

/-! ## The further claims at concrete inputs -/

/-- C11 at a concrete input: right after activation the first pointer-move
event is passed to the next hook, not blocked. -/
theorem C11_first_sample_passed_on :
    (run ratTrig inactiveState activationEvents).flight_mode_active = true ∧
      (MouseHookProc 0 WM_MOUSEMOVE ⟨100, 100⟩ ⟨960, 540⟩
        (run ratTrig inactiveState activationEvents)).1 ≠ HookResult.blocked := by
  simp [run, step, activationEvents, inactiveState, ATSFlightMode.init, KeyboardHookProc,
    MouseHookProc, ToggleFlightMode, ShowMessage, DisableGameInput, SaveVehicleState,
    WM_KEYDOWN, WM_MOUSEMOVE]

/-- C11 as amended, at the second pointer sample after activation: it is
blocked. -/
theorem C11_pointer_move_after_first_witness :
    (MouseHookProc 0 WM_MOUSEMOVE ⟨110, 90⟩ ⟨960, 540⟩
      (run ratTrig (ATSFlightMode.init sampleAddresses) firstSampleEvents)).1 =
        HookResult.blocked :=
  (C11_pointer_move_after_first ratTrig sampleAddresses firstSampleEvents 0 ⟨110, 90⟩
    ⟨960, 540⟩ (by decide)
    (by simp [run, step, firstSampleEvents, ATSFlightMode.init, KeyboardHookProc,
      MouseHookProc, ToggleFlightMode, ShowMessage, DisableGameInput, SaveVehicleState,
      WM_KEYDOWN, WM_MOUSEMOVE])).1.mpr
    (by simp [run, step, firstSampleEvents, ATSFlightMode.init, KeyboardHookProc,
      MouseHookProc, ToggleFlightMode, ShowMessage, DisableGameInput, SaveVehicleState,
      WM_KEYDOWN, WM_MOUSEMOVE])

/-- C12 at the camera `(5, 10, 5)` with yaw 90: the values written are 5, 8,
5 and `M_PI / 2`. -/
theorem C12_teleport_values_witness :
    (TeleportVehicleToCamera ratTrig teleportState).effects =
      [Effect.WriteProcessMemory resolvedAddresses.vehicle_x 5,
       Effect.WriteProcessMemory resolvedAddresses.vehicle_y 8,
       Effect.WriteProcessMemory resolvedAddresses.vehicle_z 5,
       Effect.WriteProcessMemory resolvedAddresses.vehicle_rot_y (ratTrig.M_PI / 2),
       Effect.ShowMessage Notice.VEHICLE_TELEPORTED] :=
  (C12_teleport_values ratTrig teleportState rfl (by decide) (by decide) (by decide)).2.2.2
    rfl rfl rfl rfl

/-- C13 at a failing input: on an active controller whose vehicle addresses
are unresolved, `TeleportVehicleToCamera` writes nothing and still shows the
message that the vehicle was teleported. -/
theorem C13_unresolved_teleport_notifies :
    idleState.flight_mode_active = true ∧
      idleState.addresses.vehicle_x = 0 ∧ idleState.addresses.vehicle_y = 0 ∧
      idleState.addresses.vehicle_z = 0 ∧ idleState.effects = [] ∧
      (TeleportVehicleToCamera ratTrig idleState).effects =
        [Effect.ShowMessage Notice.VEHICLE_TELEPORTED] := by
  refine ⟨rfl, rfl, rfl, rfl, rfl, ?_⟩
  simp [TeleportVehicleToCamera, ShowMessage, idleState, ATSFlightMode.init, sampleAddresses]

/-- C14 at a concrete input: telemetry put the vehicle at `(100, 20, -50)`;
activation moves the camera to `(100, 23, -50)`. -/
theorem C14_activation_seeding_witness :
    (ToggleFlightMode telemetryState).flight_mode_active = true ∧
      (ToggleFlightMode telemetryState).camera =
        { telemetryState.camera with x := 100, y := 20 + 3, z := -50 } :=
  have h := C14_activation_seeding telemetryState rfl
  ⟨h.1, h.2.1 ⟨100, 20, -50⟩ rfl⟩

section MotionTheorems

variable {F : Type} [LinearOrderedField F]

/-- With only Space held among the directional keys, `UpdateFlightMovement`
applies `moveUp` alone. -/
theorem UpdateFlightMovement_only_up (T : Trig F) (dt : F) (s : ATSFlightMode F)
    (hactive : s.flight_mode_active = true) (hSpace : s.keys VK_SPACE = true)
    (hW : s.keys KEY_W = false) (hS : s.keys KEY_S = false) (hA : s.keys KEY_A = false)
    (hD : s.keys KEY_D = false) (hC : s.keys KEY_C = false) :
    (UpdateFlightMovement T dt s).camera =
      moveUp (effectiveSpeed s.keys s.camera.speed dt) s.camera := by
  unfold UpdateFlightMovement
  simp [UpdateCameraInGame_camera, hactive, hSpace, hW, hS, hA, hD, hC]

/-- With only W held among the directional keys, `UpdateFlightMovement`
applies `moveForward` alone, along `forwardVector`. -/
theorem UpdateFlightMovement_only_forward (T : Trig F) (dt : F) (s : ATSFlightMode F)
    (hactive : s.flight_mode_active = true) (hW : s.keys KEY_W = true)
    (hS : s.keys KEY_S = false) (hA : s.keys KEY_A = false) (hD : s.keys KEY_D = false)
    (hSpace : s.keys VK_SPACE = false) (hC : s.keys KEY_C = false) :
    (UpdateFlightMovement T dt s).camera =
      moveForward
        (forwardVector T (s.camera.yaw * (T.M_PI / 180)) (s.camera.pitch * (T.M_PI / 180))).1
        (forwardVector T (s.camera.yaw * (T.M_PI / 180)) (s.camera.pitch * (T.M_PI / 180))).2.1
        (forwardVector T (s.camera.yaw * (T.M_PI / 180)) (s.camera.pitch * (T.M_PI / 180))).2.2
        (effectiveSpeed s.keys s.camera.speed dt) s.camera := by
  unfold UpdateFlightMovement forwardVector
  simp [UpdateCameraInGame_camera, hactive, hSpace, hW, hS, hA, hD, hC]

/-- C15: the effective speed is `camera.speed * dt`, times 4 when Shift is
held and times 0.2 when Control is held, both when both are held; with only
Space held among the directional keys the step raises `y` by it, which for
speed 50 and `dt = 1` is 40 with both, 200 with boost, 10 with precision and
50 with neither. -/
theorem C15_boost_precision (T : Trig F) (dt : F) (s : ATSFlightMode F)
    (hactive : s.flight_mode_active = true) (hSpace : s.keys VK_SPACE = true)
    (hW : s.keys KEY_W = false) (hS : s.keys KEY_S = false) (hA : s.keys KEY_A = false)
    (hD : s.keys KEY_D = false) (hC : s.keys KEY_C = false) :
    effectiveSpeed s.keys s.camera.speed dt =
        s.camera.speed * dt * (if s.keys VK_SHIFT then 4 else 1) *
          (if s.keys VK_CONTROL then 0.2 else 1) ∧
      (UpdateFlightMovement T dt s).camera.y =
        s.camera.y + effectiveSpeed s.keys s.camera.speed dt ∧
      (s.camera.speed = 50 → dt = 1 →
        (UpdateFlightMovement T dt s).camera.y - s.camera.y =
          if s.keys VK_SHIFT then (if s.keys VK_CONTROL then 40 else 200)
          else (if s.keys VK_CONTROL then 10 else 50)) := by
  have hstep := UpdateFlightMovement_only_up T dt s hactive hSpace hW hS hA hD hC
  have hspeed : effectiveSpeed s.keys s.camera.speed dt =
      s.camera.speed * dt * (if s.keys VK_SHIFT then 4 else 1) *
        (if s.keys VK_CONTROL then 0.2 else 1) := by
    unfold effectiveSpeed
    dsimp only
    split_ifs <;> ring
  refine ⟨hspeed, ?_, ?_⟩
  · rw [hstep]; rfl
  · intro h50 h1
    rw [hstep]
    show s.camera.y + effectiveSpeed s.keys s.camera.speed dt - s.camera.y = _
    rw [hspeed, h50, h1]
    split_ifs <;> norm_num

/-- C16: with `cos 0 = 1` and `sin 0 = 0`, at yaw 0 and pitch 0 with only W
held and no modifier, the step moves the camera from `(x, y, z)` to
`(x + speed * dt, y, z)`. -/
theorem C16_forward_at_zero (T : Trig F) (dt : F) (s : ATSFlightMode F)
    (hcos : T.cos 0 = 1) (hsin : T.sin 0 = 0)
    (hactive : s.flight_mode_active = true)
    (hyaw : s.camera.yaw = 0) (hpitch : s.camera.pitch = 0)
    (hW : s.keys KEY_W = true)
    (hS : s.keys KEY_S = false) (hA : s.keys KEY_A = false) (hD : s.keys KEY_D = false)
    (hSpace : s.keys VK_SPACE = false) (hC : s.keys KEY_C = false)
    (hShift : s.keys VK_SHIFT = false) (hControl : s.keys VK_CONTROL = false) :
    (UpdateFlightMovement T dt s).camera.x = s.camera.x + s.camera.speed * dt ∧
      (UpdateFlightMovement T dt s).camera.y = s.camera.y ∧
      (UpdateFlightMovement T dt s).camera.z = s.camera.z := by
  rw [UpdateFlightMovement_only_forward T dt s hactive hW hS hA hD hSpace hC]
  simp [moveForward, forwardVector, effectiveSpeed, hyaw, hpitch, hcos, hsin, hShift,
    hControl]

end MotionTheorems

/-- C15 at a concrete input: speed 50, `dt = 1`, Space with Shift and Control
held raises `y` by 40. -/
theorem C15_boost_precision_witness :
    (UpdateFlightMovement ratTrig 1 climbState).camera.y - climbState.camera.y = 40 :=
  (C15_boost_precision ratTrig 1 climbState rfl rfl rfl rfl rfl rfl rfl).2.2 rfl rfl

/-- C16 at the pose `(0, 0, 0)` with yaw 0, pitch 0, speed 50 and `dt = 1`:
the new position is `(50, 0, 0)`. -/
theorem C16_forward_at_zero_witness :
    (UpdateFlightMovement ratTrig 1 forwardState).camera.x = 0 + 50 * 1 ∧
      (UpdateFlightMovement ratTrig 1 forwardState).camera.y = 0 ∧
      (UpdateFlightMovement ratTrig 1 forwardState).camera.z = 0 :=
  C16_forward_at_zero ratTrig 1 forwardState (by norm_num [ratTrig]) (by norm_num [ratTrig])
    rfl rfl rfl rfl rfl rfl rfl rfl rfl rfl rfl

/-- A difference that fits a 32-bit `int` is not changed by the wrap-around. -/
theorem wrapInt32_of_fits (n : Int) (hlo : -2 ^ 31 ≤ n) (hhi : n < 2 ^ 31) :
    wrapInt32 n = n := by
  unfold wrapInt32
  norm_num at hlo hhi ⊢
  omega

section LookTheorems

variable {F : Type} [LinearOrderedField F]

/-- The two statements of lines 261-262 are the clamp to the interval from
-89 to 89. -/
theorem clampPitch_eq_max_min (p : F) : clampPitch p = max (-89) (min p 89) := by
  unfold clampPitch
  dsimp only
  split_ifs with h1 h2 h3
  · exact absurd h2 (by norm_num)
  · rw [min_eq_right (le_of_lt h1), max_eq_right (by norm_num)]
  · rw [min_eq_left (not_lt.mp h1), max_eq_left (le_of_lt h3)]
  · rw [min_eq_left (not_lt.mp h1), max_eq_right (not_lt.mp h3)]

/-- The two statements of lines 265-266 leave a yaw between 0 and 360
unchanged. -/
theorem wrapYaw_of_in_range (y : F) (hlo : 0 ≤ y) (hhi : y ≤ 360) : wrapYaw y = y := by
  unfold wrapYaw
  dsimp only
  rw [if_neg (not_lt.mpr hhi), if_neg (not_lt.mpr hlo)]

/-- The look update of lines 253-266: a pointer-move sample that is not the
first one, processed while flight mode and mouse look are active and whose
differences to the stored baseline fit a 32-bit `int`, sets the yaw to
`wrapYaw (yaw + 0.15 * (px - lx))` and the pitch to the clamp to the interval
from -89 to 89 of `pitch - 0.15 * (py - ly)`; from the baseline `(100, 100)`
to `(110, 90)`, away from the limits, yaw and pitch both grow by 1.5. -/
theorem MouseHookProc_look_delta (nCode : Int) (pt center : POINT) (s : ATSFlightMode F)
    (hn : 0 ≤ nCode) (hactive : s.flight_mode_active = true)
    (hlook : s.mouse_look_active = true) (hfirst : s.first_move = false)
    (hxlo : -2 ^ 31 ≤ pt.x - s.last_mouse_pos.x) (hxhi : pt.x - s.last_mouse_pos.x < 2 ^ 31)
    (hylo : -2 ^ 31 ≤ pt.y - s.last_mouse_pos.y) (hyhi : pt.y - s.last_mouse_pos.y < 2 ^ 31) :
    (MouseHookProc nCode WM_MOUSEMOVE pt center s).2.camera.yaw =
        wrapYaw (s.camera.yaw + 0.15 * ((pt.x - s.last_mouse_pos.x : Int) : F)) ∧
      (MouseHookProc nCode WM_MOUSEMOVE pt center s).2.camera.pitch =
        max (-89) (min (s.camera.pitch - 0.15 * ((pt.y - s.last_mouse_pos.y : Int) : F)) 89) ∧
      (s.last_mouse_pos = ⟨100, 100⟩ → pt = ⟨110, 90⟩ →
        0 ≤ s.camera.yaw + 1.5 → s.camera.yaw + 1.5 ≤ 360 →
        -89 ≤ s.camera.pitch + 1.5 → s.camera.pitch + 1.5 ≤ 89 →
        (MouseHookProc nCode WM_MOUSEMOVE pt center s).2.camera.yaw = s.camera.yaw + 1.5 ∧
          (MouseHookProc nCode WM_MOUSEMOVE pt center s).2.camera.pitch =
            s.camera.pitch + 1.5) := by
  have hyaw : (MouseHookProc nCode WM_MOUSEMOVE pt center s).2.camera.yaw =
      wrapYaw (s.camera.yaw + 0.15 * ((pt.x - s.last_mouse_pos.x : Int) : F)) := by
    unfold MouseHookProc
    rw [if_pos ⟨hn, hactive, hlook⟩, if_pos rfl, hfirst]
    simp only [Bool.false_eq_true, if_false, wrapInt32_of_fits _ hxlo hxhi]
    rw [mul_comm]
  have hpitch : (MouseHookProc nCode WM_MOUSEMOVE pt center s).2.camera.pitch =
      clampPitch (s.camera.pitch - 0.15 * ((pt.y - s.last_mouse_pos.y : Int) : F)) := by
    unfold MouseHookProc
    rw [if_pos ⟨hn, hactive, hlook⟩, if_pos rfl, hfirst]
    simp only [Bool.false_eq_true, if_false, wrapInt32_of_fits _ hylo hyhi]
    rw [mul_comm]
  refine ⟨hyaw, ?_, ?_⟩
  · rw [hpitch, clampPitch_eq_max_min]
  · intro hbase hpt hy0 hy1 hp0 hp1
    have hdx : pt.x - s.last_mouse_pos.x = 10 := by rw [hbase, hpt]; rfl
    have hdy : pt.y - s.last_mouse_pos.y = -10 := by rw [hbase, hpt]; rfl
    have hyv : s.camera.yaw + 0.15 * ((10 : Int) : F) = s.camera.yaw + 1.5 := by
      push_cast; norm_num
    have hpv : s.camera.pitch - 0.15 * ((-10 : Int) : F) = s.camera.pitch + 1.5 := by
      push_cast; norm_num
    constructor
    · rw [hyaw, hdx, hyv, wrapYaw_of_in_range _ hy0 hy1]
    · rw [hpitch, hdy, hpv, clampPitch_eq_max_min, min_eq_left hp1, max_eq_right hp0]

/-- C18: on a controller on which flight mode is off, `Shutdown` changes
nothing, the trace of notifications included; and in every state `Shutdown`
run twice gives the state that running it once gives. -/
theorem C18_shutdown_idempotent (s : ATSFlightMode F) :
    (s.flight_mode_active = false → Shutdown s = s) ∧
      Shutdown (Shutdown s) = Shutdown s := by
  constructor
  · intro hinactive
    unfold Shutdown
    simp [hinactive]
  · cases hactive : s.flight_mode_active
    · have h : Shutdown s = s := by unfold Shutdown; simp [hactive]
      rw [h, h]
    · have h : Shutdown s = ToggleFlightMode s := by unfold Shutdown; simp [hactive]
      have hoff : (ToggleFlightMode s).flight_mode_active = false := by
        rw [ToggleFlightMode_active, hactive]; rfl
      rw [h]
      unfold Shutdown
      simp [hoff]

end LookTheorems

/-- The look update at the baseline `(100, 100)` and the sample `(110, 90)`:
yaw goes from 45 to 46.5 and pitch from 10 to 11.5. -/
theorem MouseHookProc_look_delta_example :
    (MouseHookProc 0 WM_MOUSEMOVE ⟨110, 90⟩ ⟨960, 540⟩ lookState).2.camera.yaw =
        lookState.camera.yaw + 1.5 ∧
      (MouseHookProc 0 WM_MOUSEMOVE ⟨110, 90⟩ ⟨960, 540⟩ lookState).2.camera.pitch =
        lookState.camera.pitch + 1.5 :=
  (MouseHookProc_look_delta 0 ⟨110, 90⟩ ⟨960, 540⟩ lookState (by decide) rfl rfl rfl (by decide)
    (by decide) (by decide) (by decide)).2.2 rfl rfl
    (by norm_num [lookState, activeState, ATSFlightMode.init])
    (by norm_num [lookState, activeState, ATSFlightMode.init])
    (by norm_num [lookState, activeState, ATSFlightMode.init])
    (by norm_num [lookState, activeState, ATSFlightMode.init])

/-- C18 at the constructor state, on which flight mode is off: `Shutdown`
returns it unchanged, once and twice. -/
theorem C18_shutdown_idempotent_witness :
    Shutdown inactiveState = inactiveState ∧
      Shutdown (Shutdown inactiveState) = Shutdown inactiveState :=
  ⟨(C18_shutdown_idempotent inactiveState).1 rfl, (C18_shutdown_idempotent inactiveState).2⟩

section VerticalTheorems

variable {F : Type} [LinearOrderedField F]

/-- With only C held among the directional keys, `UpdateFlightMovement`
applies `moveDown` alone. -/
theorem UpdateFlightMovement_only_down (T : Trig F) (dt : F) (s : ATSFlightMode F)
    (hactive : s.flight_mode_active = true) (hC : s.keys KEY_C = true)
    (hW : s.keys KEY_W = false) (hS : s.keys KEY_S = false) (hA : s.keys KEY_A = false)
    (hD : s.keys KEY_D = false) (hSpace : s.keys VK_SPACE = false) :
    (UpdateFlightMovement T dt s).camera =
      moveDown (effectiveSpeed s.keys s.camera.speed dt) s.camera := by
  unfold UpdateFlightMovement
  simp [UpdateCameraInGame_camera, hactive, hSpace, hW, hS, hA, hD, hC]

/-- The height after a step of an active controller: only W, S, Space and C
contribute to it. -/
theorem UpdateFlightMovement_y (T : Trig F) (dt : F) (s : ATSFlightMode F)
    (hactive : s.flight_mode_active = true) :
    (UpdateFlightMovement T dt s).camera.y =
      s.camera.y +
        (if s.keys KEY_W then
          T.sin (s.camera.pitch * (T.M_PI / 180)) * effectiveSpeed s.keys s.camera.speed dt
         else 0) -
        (if s.keys KEY_S then
          T.sin (s.camera.pitch * (T.M_PI / 180)) * effectiveSpeed s.keys s.camera.speed dt
         else 0) +
        (if s.keys VK_SPACE then effectiveSpeed s.keys s.camera.speed dt else 0) -
        (if s.keys KEY_C then effectiveSpeed s.keys s.camera.speed dt else 0) := by
  unfold UpdateFlightMovement
  simp only [hactive, Bool.not_true, Bool.false_eq_true, if_false]
  rw [UpdateCameraInGame_camera]
  dsimp only
  cases s.keys KEY_W <;> cases s.keys KEY_S <;> cases s.keys KEY_A <;> cases s.keys KEY_D <;>
    cases s.keys VK_SPACE <;> cases s.keys KEY_C <;>
    simp only [moveForward, moveBackward, moveLeft, moveRight, moveUp, moveDown, if_true,
      if_false, Bool.false_eq_true] <;>
    ring

/-- The effective speed reads the key table at Shift and Control only. -/
theorem effectiveSpeed_congr (keys1 keys2 : Fin 256 → Bool) (camera_speed dt : F)
    (hShift : keys1 VK_SHIFT = keys2 VK_SHIFT) (hControl : keys1 VK_CONTROL = keys2 VK_CONTROL) :
    effectiveSpeed keys1 camera_speed dt = effectiveSpeed keys2 camera_speed dt := by
  unfold effectiveSpeed
  rw [hShift, hControl]

/-- C19: on an active controller, whatever yaw, pitch, time step and
modifiers, with only Space held the step adds the effective speed to `y` and
leaves the rest of the camera, with only C held it subtracts it, and the
height after the step does not depend on the keys A and D: with no other
directional key held it is the height before the step. -/
theorem C19_vertical_decoupled (T : Trig F) (dt : F) (s : ATSFlightMode F)
    (hactive : s.flight_mode_active = true) :
    (s.keys VK_SPACE = true → s.keys KEY_W = false → s.keys KEY_S = false →
        s.keys KEY_A = false → s.keys KEY_D = false → s.keys KEY_C = false →
        (UpdateFlightMovement T dt s).camera =
          { s.camera with y := s.camera.y + effectiveSpeed s.keys s.camera.speed dt }) ∧
      (s.keys KEY_C = true → s.keys KEY_W = false → s.keys KEY_S = false →
        s.keys KEY_A = false → s.keys KEY_D = false → s.keys VK_SPACE = false →
        (UpdateFlightMovement T dt s).camera =
          { s.camera with y := s.camera.y - effectiveSpeed s.keys s.camera.speed dt }) ∧
      (∀ a d : Bool,
        (UpdateFlightMovement T dt
          { s with keys := Function.update (Function.update s.keys KEY_A a) KEY_D d }).camera.y =
        (UpdateFlightMovement T dt s).camera.y) ∧
      (s.keys KEY_W = false → s.keys KEY_S = false → s.keys VK_SPACE = false →
        s.keys KEY_C = false → (UpdateFlightMovement T dt s).camera.y = s.camera.y) := by
  refine ⟨?_, ?_, ?_, ?_⟩
  · intro hSpace hW hS hA hD hC
    rw [UpdateFlightMovement_only_up T dt s hactive hSpace hW hS hA hD hC]
    rfl
  · intro hC hW hS hA hD hSpace
    rw [UpdateFlightMovement_only_down T dt s hactive hC hW hS hA hD hSpace]
    rfl
  · intro a d
    have hk : ∀ k : Fin 256, k ≠ KEY_A → k ≠ KEY_D →
        Function.update (Function.update s.keys KEY_A a) KEY_D d k = s.keys k := by
      intro k hkA hkD
      rw [Function.update_noteq hkD, Function.update_noteq hkA]
    have hspeed := effectiveSpeed_congr
      (Function.update (Function.update s.keys KEY_A a) KEY_D d) s.keys s.camera.speed dt
      (hk VK_SHIFT (by decide) (by decide)) (hk VK_CONTROL (by decide) (by decide))
    have hnew := UpdateFlightMovement_y T dt
      { s with keys := Function.update (Function.update s.keys KEY_A a) KEY_D d } hactive
    simp only [hspeed, hk KEY_W (by decide) (by decide), hk KEY_S (by decide) (by decide),
      hk VK_SPACE (by decide) (by decide), hk KEY_C (by decide) (by decide)] at hnew
    rw [hnew, UpdateFlightMovement_y T dt s hactive]
  · intro hW hS hSpace hC
    rw [UpdateFlightMovement_y T dt s hactive]
    simp [hW, hS, hSpace, hC]

end VerticalTheorems

/-- C19 at a concrete input: pitch 40, yaw 75, Space and Shift held, time
step `1/2`; the step adds the effective speed to `y` and leaves `x` and `z`. -/
theorem C19_vertical_decoupled_witness :
    (UpdateFlightMovement ratTrig (1 / 2) riseState).camera =
      { riseState.camera with
        y := riseState.camera.y + effectiveSpeed riseState.keys riseState.camera.speed (1 / 2) } :=
  (C19_vertical_decoupled ratTrig (1 / 2) riseState rfl).1 rfl rfl rfl rfl rfl rfl

section BasisTheorems

variable {F : Type} [LinearOrderedField F]

/-- With only A held among the directional keys, `UpdateFlightMovement`
applies `moveLeft` alone, along `rightVector`. -/
theorem UpdateFlightMovement_only_left (T : Trig F) (dt : F) (s : ATSFlightMode F)
    (hactive : s.flight_mode_active = true) (hA : s.keys KEY_A = true)
    (hW : s.keys KEY_W = false) (hS : s.keys KEY_S = false) (hD : s.keys KEY_D = false)
    (hSpace : s.keys VK_SPACE = false) (hC : s.keys KEY_C = false) :
    (UpdateFlightMovement T dt s).camera =
      moveLeft (rightVector T (s.camera.yaw * (T.M_PI / 180))).1
        (rightVector T (s.camera.yaw * (T.M_PI / 180))).2
        (effectiveSpeed s.keys s.camera.speed dt) s.camera := by
  unfold UpdateFlightMovement rightVector
  simp [UpdateCameraInGame_camera, hactive, hSpace, hW, hS, hA, hD, hC]

/-- With only D held among the directional keys, `UpdateFlightMovement`
applies `moveRight` alone, along `rightVector`. -/
theorem UpdateFlightMovement_only_right (T : Trig F) (dt : F) (s : ATSFlightMode F)
    (hactive : s.flight_mode_active = true) (hD : s.keys KEY_D = true)
    (hW : s.keys KEY_W = false) (hS : s.keys KEY_S = false) (hA : s.keys KEY_A = false)
    (hSpace : s.keys VK_SPACE = false) (hC : s.keys KEY_C = false) :
    (UpdateFlightMovement T dt s).camera =
      moveRight (rightVector T (s.camera.yaw * (T.M_PI / 180))).1
        (rightVector T (s.camera.yaw * (T.M_PI / 180))).2
        (effectiveSpeed s.keys s.camera.speed dt) s.camera := by
  unfold UpdateFlightMovement rightVector
  simp [UpdateCameraInGame_camera, hactive, hSpace, hW, hS, hA, hD, hC]

/-- The effective speed is not negative when the camera speed and the time
step are not. -/
theorem effectiveSpeed_nonneg (keys : Fin 256 → Bool) (camera_speed dt : F)
    (hspeed : 0 ≤ camera_speed) (hdt : 0 ≤ dt) : 0 ≤ effectiveSpeed keys camera_speed dt := by
  have h0 : 0 ≤ camera_speed * dt := mul_nonneg hspeed hdt
  unfold effectiveSpeed
  dsimp only
  split_ifs
  · exact mul_nonneg (mul_nonneg h0 (by norm_num)) (by norm_num)
  · exact mul_nonneg h0 (by norm_num)
  · exact mul_nonneg h0 (by norm_num)
  · exact h0

end BasisTheorems

/-- The forward vector of the real cosine and sine has square norm 1. -/
theorem forwardVector_sq_norm (yaw_rad pitch_rad : ℝ) :
    (Real.cos yaw_rad * Real.cos pitch_rad) ^ 2 + Real.sin pitch_rad ^ 2 +
      (Real.sin yaw_rad * Real.cos pitch_rad) ^ 2 = 1 := by
  have hy := Real.cos_sq_add_sin_sq yaw_rad
  have hp := Real.cos_sq_add_sin_sq pitch_rad
  linear_combination (Real.cos pitch_rad ^ 2) * hy + hp

/-- The right vector of the real cosine and sine has square norm 1. -/
theorem rightVector_sq_norm (yaw_rad : ℝ) :
    Real.cos (yaw_rad + Real.pi / 2) ^ 2 + Real.sin (yaw_rad + Real.pi / 2) ^ 2 = 1 :=
  Real.cos_sq_add_sin_sq _

/-- C20: over the reals, with the real cosine, sine and pi, the forward
vector has Euclidean norm 1 for every yaw and pitch, the right vector has
norm 1 and is orthogonal to the forward vector, and on an active controller a
step with only W, only A or only D held moves the camera by a Euclidean
distance equal to the absolute value of the effective speed, which is the
effective speed itself when camera speed and time step are not negative. -/
theorem C20_unit_basis (T : Trig ℝ) (hT : T = ⟨Real.pi, Real.cos, Real.sin⟩)
    (yaw_rad pitch_rad dt : ℝ) (s : ATSFlightMode ℝ)
    (hactive : s.flight_mode_active = true) :
    Real.sqrt ((forwardVector T yaw_rad pitch_rad).1 ^ 2 +
        (forwardVector T yaw_rad pitch_rad).2.1 ^ 2 +
        (forwardVector T yaw_rad pitch_rad).2.2 ^ 2) = 1 ∧
      Real.sqrt ((rightVector T yaw_rad).1 ^ 2 + 0 ^ 2 + (rightVector T yaw_rad).2 ^ 2) = 1 ∧
      (forwardVector T yaw_rad pitch_rad).1 * (rightVector T yaw_rad).1 +
        (forwardVector T yaw_rad pitch_rad).2.1 * 0 +
        (forwardVector T yaw_rad pitch_rad).2.2 * (rightVector T yaw_rad).2 = 0 ∧
      (s.keys KEY_W = true → s.keys KEY_S = false → s.keys KEY_A = false →
        s.keys KEY_D = false → s.keys VK_SPACE = false → s.keys KEY_C = false →
        Real.sqrt (sqDistance s.camera (UpdateFlightMovement T dt s).camera) =
          |effectiveSpeed s.keys s.camera.speed dt|) ∧
      (s.keys KEY_A = true → s.keys KEY_W = false → s.keys KEY_S = false →
        s.keys KEY_D = false → s.keys VK_SPACE = false → s.keys KEY_C = false →
        Real.sqrt (sqDistance s.camera (UpdateFlightMovement T dt s).camera) =
          |effectiveSpeed s.keys s.camera.speed dt|) ∧
      (s.keys KEY_D = true → s.keys KEY_W = false → s.keys KEY_S = false →
        s.keys KEY_A = false → s.keys VK_SPACE = false → s.keys KEY_C = false →
        Real.sqrt (sqDistance s.camera (UpdateFlightMovement T dt s).camera) =
          |effectiveSpeed s.keys s.camera.speed dt|) ∧
      (0 ≤ s.camera.speed → 0 ≤ dt →
        |effectiveSpeed s.keys s.camera.speed dt| = effectiveSpeed s.keys s.camera.speed dt) := by
  subst hT
  refine ⟨?_, ?_, ?_, ?_, ?_, ?_, ?_⟩
  · simp only [forwardVector]
    rw [forwardVector_sq_norm, Real.sqrt_one]
  · simp only [rightVector]
    have h := rightVector_sq_norm yaw_rad
    have h1 : Real.cos (yaw_rad + Real.pi / 2) ^ 2 + 0 ^ 2 +
        Real.sin (yaw_rad + Real.pi / 2) ^ 2 = 1 := by linear_combination h
    rw [h1, Real.sqrt_one]
  · simp only [forwardVector, rightVector, Real.cos_add_pi_div_two, Real.sin_add_pi_div_two]
    ring
  · intro hW hS hA hD hSpace hC
    rw [UpdateFlightMovement_only_forward _ dt s hactive hW hS hA hD hSpace hC]
    have h := forwardVector_sq_norm (s.camera.yaw * (Real.pi / 180))
      (s.camera.pitch * (Real.pi / 180))
    have hsq : sqDistance s.camera
        (moveForward
          (forwardVector ⟨Real.pi, Real.cos, Real.sin⟩ (s.camera.yaw * (Real.pi / 180))
            (s.camera.pitch * (Real.pi / 180))).1
          (forwardVector ⟨Real.pi, Real.cos, Real.sin⟩ (s.camera.yaw * (Real.pi / 180))
            (s.camera.pitch * (Real.pi / 180))).2.1
          (forwardVector ⟨Real.pi, Real.cos, Real.sin⟩ (s.camera.yaw * (Real.pi / 180))
            (s.camera.pitch * (Real.pi / 180))).2.2
          (effectiveSpeed s.keys s.camera.speed dt) s.camera) =
        effectiveSpeed s.keys s.camera.speed dt ^ 2 := by
      simp only [sqDistance, moveForward, forwardVector]
      linear_combination (effectiveSpeed s.keys s.camera.speed dt ^ 2) * h
    rw [hsq, Real.sqrt_sq_eq_abs]
  · intro hA hW hS hD hSpace hC
    rw [UpdateFlightMovement_only_left _ dt s hactive hA hW hS hD hSpace hC]
    have h := rightVector_sq_norm (s.camera.yaw * (Real.pi / 180))
    have hsq : sqDistance s.camera
        (moveLeft
          (rightVector ⟨Real.pi, Real.cos, Real.sin⟩ (s.camera.yaw * (Real.pi / 180))).1
          (rightVector ⟨Real.pi, Real.cos, Real.sin⟩ (s.camera.yaw * (Real.pi / 180))).2
          (effectiveSpeed s.keys s.camera.speed dt) s.camera) =
        effectiveSpeed s.keys s.camera.speed dt ^ 2 := by
      simp only [sqDistance, moveLeft, rightVector]
      linear_combination (effectiveSpeed s.keys s.camera.speed dt ^ 2) * h
    rw [hsq, Real.sqrt_sq_eq_abs]
  · intro hD hW hS hA hSpace hC
    rw [UpdateFlightMovement_only_right _ dt s hactive hD hW hS hA hSpace hC]
    have h := rightVector_sq_norm (s.camera.yaw * (Real.pi / 180))
    have hsq : sqDistance s.camera
        (moveRight
          (rightVector ⟨Real.pi, Real.cos, Real.sin⟩ (s.camera.yaw * (Real.pi / 180))).1
          (rightVector ⟨Real.pi, Real.cos, Real.sin⟩ (s.camera.yaw * (Real.pi / 180))).2
          (effectiveSpeed s.keys s.camera.speed dt) s.camera) =
        effectiveSpeed s.keys s.camera.speed dt ^ 2 := by
      simp only [sqDistance, moveRight, rightVector]
      linear_combination (effectiveSpeed s.keys s.camera.speed dt ^ 2) * h
    rw [hsq, Real.sqrt_sq_eq_abs]
  · intro hspeed hdt
    exact abs_of_nonneg (effectiveSpeed_nonneg s.keys s.camera.speed dt hspeed hdt)

/-- C20 at a concrete input over the reals: the constructor pose with yaw 30
and pitch 20, only W held, time step 1; the camera moves by the absolute
value of the effective speed. -/
theorem C20_unit_basis_witness :
    Real.sqrt (sqDistance
        (activeState sampleAddresses ⟨0, 0, 0, 20, 30, 0, 50, true⟩
          (fun k => k == KEY_W) : ATSFlightMode ℝ).camera
        (UpdateFlightMovement ⟨Real.pi, Real.cos, Real.sin⟩ 1
          (activeState sampleAddresses ⟨0, 0, 0, 20, 30, 0, 50, true⟩
            (fun k => k == KEY_W) : ATSFlightMode ℝ)).camera) =
      |effectiveSpeed
        (activeState sampleAddresses ⟨0, 0, 0, 20, 30, 0, 50, true⟩
          (fun k => k == KEY_W) : ATSFlightMode ℝ).keys
        (activeState sampleAddresses ⟨0, 0, 0, 20, 30, 0, 50, true⟩
          (fun k => k == KEY_W) : ATSFlightMode ℝ).camera.speed 1| :=
  (C20_unit_basis ⟨Real.pi, Real.cos, Real.sin⟩ rfl 0 0 1
    (activeState sampleAddresses ⟨0, 0, 0, 20, 30, 0, 50, true⟩ (fun k => k == KEY_W))
    rfl).2.2.2.1 rfl rfl rfl rfl rfl rfl

section PairingTheorems

variable {F : Type} [LinearOrderedField F]

end PairingTheorems

/-- The wrap of the spec lands in the interval from 0 to 360, 360 excluded. -/
theorem specWrapYaw_range (y : ℚ) : 0 ≤ specWrapYaw y ∧ specWrapYaw y < 360 := by
  unfold specWrapYaw
  have h1 := Int.floor_le (y / 360)
  have h2 := Int.lt_floor_add_one (y / 360)
  constructor
  · have : ((⌊y / 360⌋ : ℤ) : ℚ) * 360 ≤ y := by
      have := mul_le_mul_of_nonneg_right h1 (show (0 : ℚ) ≤ 360 by norm_num)
      rwa [div_mul_cancel₀ y (show (360 : ℚ) ≠ 0 by norm_num)] at this
    linarith
  · have : y < (((⌊y / 360⌋ : ℤ) : ℚ) + 1) * 360 := by
      have := mul_lt_mul_of_pos_right h2 (show (0 : ℚ) < 360 by norm_num)
      rwa [div_mul_cancel₀ y (show (360 : ℚ) ≠ 0 by norm_num)] at this
    linarith

/-- The wrap of the spec of a value that is a whole number `k` of turns and a
rest `r` in the interval from 0 to 360 is `r`. -/
theorem specWrapYaw_turns (k : ℤ) (r : ℚ) (h0 : 0 ≤ r) (h1 : r < 360) :
    specWrapYaw (360 * k + r) = r := by
  unfold specWrapYaw
  have hfloor : ⌊(360 * (k : ℚ) + r) / 360⌋ = k := by
    rw [Int.floor_eq_iff]
    constructor
    · rw [le_div_iff₀ (by norm_num)]; linarith
    · rw [div_lt_iff₀ (by norm_num)]; linarith
  rw [hfloor]
  ring

/-- The two statements of lines 265-266 agree with the wrap of the spec on
the values from -360 to 720 other than 360, and only there do they land in
the interval of the spec. -/
theorem wrapYaw_eq_specWrapYaw (y : ℚ) (hlo : -360 ≤ y) (hhi : y < 720) (hne : y ≠ 360) :
    wrapYaw y = specWrapYaw y := by
  unfold wrapYaw
  dsimp only
  by_cases h1 : y > 360
  · rw [if_pos h1, if_neg (by linarith)]
    have h := specWrapYaw_turns 1 (y - 360) (by linarith) (by linarith)
    have e : 360 * ((1 : ℤ) : ℚ) + (y - 360) = y := by push_cast; ring
    rw [e] at h
    exact h.symm
  · rw [if_neg h1]
    have hlt : y < 360 := lt_of_le_of_ne (not_lt.mp h1) hne
    by_cases h2 : y < 0
    · rw [if_pos h2]
      have h := specWrapYaw_turns (-1) (y + 360) (by linarith) (by linarith)
      have e : 360 * ((-1 : ℤ) : ℚ) + (y + 360) = y := by push_cast; ring
      rw [e] at h
      exact h.symm
    · rw [if_neg h2]
      have h := specWrapYaw_turns 0 y (not_lt.mp h2) hlt
      have e : 360 * ((0 : ℤ) : ℚ) + y = y := by push_cast; ring
      rw [e] at h
      exact h.symm

/-- C17 at a failing input: on the active controller with baseline `(0, 0)`
and yaw 0, the pointer sample `(5000, 0)`, which is not the first one, leaves
the yaw at 390, while the wrap into the interval from 0 to 360 of
`yaw + 0.15 * (5000 - 0) = 750` is 30; the pitch is the clamp of the claim. -/
theorem C17_yaw_not_wrapped :
    (run ratTrig inactiveState originSampleEvents).flight_mode_active = true ∧
      (run ratTrig inactiveState originSampleEvents).first_move = false ∧
      (run ratTrig inactiveState originSampleEvents).last_mouse_pos = ⟨0, 0⟩ ∧
      (run ratTrig inactiveState originSampleEvents).camera.yaw = 0 ∧
      (MouseHookProc 0 WM_MOUSEMOVE ⟨5000, 0⟩ ⟨960, 540⟩
        (run ratTrig inactiveState originSampleEvents)).2.camera.yaw = 390 ∧
      specWrapYaw ((run ratTrig inactiveState originSampleEvents).camera.yaw +
        0.15 * ((5000 - 0 : ℤ) : ℚ)) = 30 ∧
      (MouseHookProc 0 WM_MOUSEMOVE ⟨5000, 0⟩ ⟨960, 540⟩
        (run ratTrig inactiveState originSampleEvents)).2.camera.pitch =
          max (-89) (min ((run ratTrig inactiveState originSampleEvents).camera.pitch -
            0.15 * ((0 - 0 : ℤ) : ℚ)) 89) := by
  have hs : run ratTrig inactiveState originSampleEvents =
      { (ToggleFlightMode
          { inactiveState with keys := Function.update inactiveState.keys VK_F9 true }) with
        last_mouse_pos := ⟨0, 0⟩, first_move := false } := by
    simp [run, step, originSampleEvents, inactiveState, ATSFlightMode.init, KeyboardHookProc,
      MouseHookProc, ToggleFlightMode, ShowMessage, DisableGameInput, SaveVehicleState,
      WM_KEYDOWN, WM_MOUSEMOVE]
  rw [hs]
  refine ⟨?_, ?_, ?_, ?_, ?_, ?_, ?_⟩
  · simp [ToggleFlightMode, ShowMessage, DisableGameInput, SaveVehicleState, inactiveState,
      ATSFlightMode.init]
  · rfl
  · rfl
  · simp [ToggleFlightMode, ShowMessage, DisableGameInput, SaveVehicleState, inactiveState,
      ATSFlightMode.init]
  · simp [MouseHookProc, ToggleFlightMode, ShowMessage, DisableGameInput, SaveVehicleState,
      inactiveState, ATSFlightMode.init, wrapYaw, wrapInt32, WM_MOUSEMOVE]
    norm_num
  · have h750 : (0 : ℚ) + 0.15 * ((5000 - 0 : ℤ) : ℚ) = 360 * ((2 : ℤ) : ℚ) + 30 := by
      norm_num
    simp only [ToggleFlightMode, ShowMessage, DisableGameInput, SaveVehicleState,
      inactiveState, ATSFlightMode.init, Bool.not_false, if_true]
    rw [h750]
    exact specWrapYaw_turns 2 30 (by norm_num) (by norm_num)
  · simp [MouseHookProc, ToggleFlightMode, ShowMessage, DisableGameInput, SaveVehicleState,
      inactiveState, ATSFlightMode.init, clampPitch, wrapInt32, WM_MOUSEMOVE]
    norm_num

end FlightMode
